import Mathlib

/-! Workload model of operator-builder (package `internal/workload/v1`).

A shallow embedding of the kind registry (`kind.go`), of validation, resource
description and naming of workload collections (`collection.go`) and of
component workloads (`component.go`).

Conventions of the embedding:

* a Go `string` is a Lean `String`; the empty string is the Go zero value;
* a Go `error` is an `Option GoError` (`none` is `nil`);
* a method with a pointer receiver that mutates it returns the new receiver;
* a Go map literal is an association list, `m[k]` is `List.lookup`.
-/

namespace OperatorBuilder

/-- A Go `string`. -/
abbrev GoString := String

/-! ## Errors -/

/-- Go error values: `errors.New msg` is `new msg`; `fmt.Errorf` with one `%w`
verb is `wrap msg inner`, where `msg` is the formatted text. The sentinels of
the package have pairwise different texts, so the text stands for the identity
of a sentinel. -/
inductive GoError where
  | new (msg : String)
  | wrap (msg : String) (inner : GoError)
  deriving DecidableEq, Repr

/-- The method `Error()` of an error: its text. -/
def GoError.Error : GoError → String
  | .new msg => msg
  | .wrap msg _ => msg

/-- Go `errors.Is err target`: `target` is `err` or is on its chain of wrapped
errors. -/
def GoError.Is : GoError → GoError → Bool
  | .new msg, target => decide (GoError.new msg = target)
  | .wrap msg inner, target => decide (GoError.wrap msg inner = target) || inner.Is target

/-! ## kind.go -/

/-- Go `type WorkloadKind int32`. -/
structure WorkloadKind where
  val : Int
  deriving DecidableEq, Repr

/-- Go `var ErrInvalidKind`. -/
def ErrInvalidKind : GoError :=
  .new "unrecognized workload kind in workload config"

/-- Go constant `WorkloadKindUnknown` (iota = 0). -/
def WorkloadKindUnknown : WorkloadKind := ⟨0⟩

/-- Go constant `WorkloadKindStandalone` (iota = 1). -/
def WorkloadKindStandalone : WorkloadKind := ⟨1⟩

/-- Go constant `WorkloadKindCollection` (iota = 2). -/
def WorkloadKindCollection : WorkloadKind := ⟨2⟩

/-- Go constant `WorkloadKindComponent` (iota = 3). -/
def WorkloadKindComponent : WorkloadKind := ⟨3⟩

/-- Go `func (wk WorkloadKind) String() string`: a lookup in the local map
`kinds`; a key that is absent yields the zero value of `string`. -/
def WorkloadKind.String (wk : WorkloadKind) : GoString :=
  let kinds : List (WorkloadKind × GoString) := [
    (WorkloadKindStandalone, "StandaloneWorkload"),
    (WorkloadKindCollection, "WorkloadCollection"),
    (WorkloadKindComponent, "ComponentWorkload"),
    (WorkloadKindUnknown, "Unknown Workload Type")]
  (kinds.lookup wk).getD ""

/-- Go `func workloadKindsMap() map[string]WorkloadKind`. -/
def workloadKindsMap : List (String × WorkloadKind) := [
  ("StandaloneWorkload", WorkloadKindStandalone),
  ("WorkloadCollection", WorkloadKindCollection),
  ("ComponentWorkload", WorkloadKindComponent)]

/-- The part of `yaml.Node` that `UnmarshalYAML` reads. -/
structure YamlNode where
  Value : String
  deriving DecidableEq, Repr

/-- Go `func (wk *WorkloadKind) UnmarshalJSON(data []byte) error`; `data` is
given as the string `string(data)`. Returns the receiver after the call and the
error. -/
def WorkloadKind.UnmarshalJSON (wk : WorkloadKind) (data : GoString) :
    WorkloadKind × Option GoError :=
  match workloadKindsMap.lookup data with
  | none => (wk, some ErrInvalidKind)
  | some kind => (kind, none)

/-- Go `func (wk *WorkloadKind) UnmarshalYAML(node *yaml.Node) error`. Returns
the receiver after the call and the error. -/
def WorkloadKind.UnmarshalYAML (wk : WorkloadKind) (node : YamlNode) :
    WorkloadKind × Option GoError :=
  match workloadKindsMap.lookup node.Value with
  | none => (wk, some ErrInvalidKind)
  | some kind => (kind, none)

/-! ## Types shared by the workloads -/

/-- Modelled from the spec: type `WorkloadShared` (§3; declared in a file of
the package that is not at hand). Its three fields are those the composite
literals of `NewWorkloadCollection` and of the tests name. -/
structure WorkloadShared where
  Name : String := ""
  PackageName : String := ""
  Kind : WorkloadKind := WorkloadKindUnknown
  deriving DecidableEq, Repr

/-- Modelled from the spec: type `WorkloadAPISpec` (§3; declared in a file of
the package that is not at hand): the target API coordinates. -/
structure WorkloadAPISpec where
  Domain : String := ""
  Group : String := ""
  Version : String := ""
  Kind : String := ""
  ClusterScoped : Bool := false
  deriving DecidableEq, Repr

/-- Modelled from the spec: type `CliCommand` (§3; declared in a file of the
package that is not at hand): companion command metadata, with the fields the
tests of `SetNames` name. -/
structure CliCommand where
  Name : String := ""
  Description : String := ""
  VarName : String := ""
  FileName : String := ""
  IsSubcommand : Bool := false
  IsRootcommand : Bool := false
  deriving DecidableEq, Repr

/-- A Go pointer, as the identity of the object it points to. -/
structure Ptr where
  addr : Nat
  deriving DecidableEq, Repr

/-- Modelled from the spec: type `Resource` of a manifest reference (§3;
declared in a file of the package that is not at hand), by its file name. -/
structure Resource where
  FileName : String := ""
  deriving DecidableEq, Repr

/-- Modelled from the spec: type `WorkloadSpec` (declared in a file of the
package that is not at hand), with the fields that `collection.go` and
`component.go` read: `Resources`, the back-reference `Collection` and the
pointers `SourceFiles`, `APISpecFields`, `RBACRules`, `OwnershipRules`. -/
structure WorkloadSpec where
  Resources : List Resource := []
  Collection : Option Ptr := none
  SourceFiles : Option Ptr := none
  APISpecFields : Option Ptr := none
  RBACRules : Option Ptr := none
  OwnershipRules : Option Ptr := none
  deriving DecidableEq, Repr

/-- Go `type ComponentWorkloadSpec struct`; a `[]*ComponentWorkload` is a list
of pointers. -/
structure ComponentWorkloadSpec extends WorkloadSpec where
  API : WorkloadAPISpec := {}
  CompanionCliSubcmd : CliCommand := {}
  CompanionCliRootcmd : CliCommand := {}
  Dependencies : List String := []
  ConfigPath : String := ""
  ComponentDependencies : List Ptr := []
  deriving DecidableEq, Repr

/-- Go `type ComponentWorkload struct`. -/
structure ComponentWorkload extends WorkloadShared where
  Spec : ComponentWorkloadSpec := {}
  deriving DecidableEq, Repr

/-- Go `type WorkloadCollectionSpec struct`. -/
structure WorkloadCollectionSpec extends WorkloadSpec where
  API : WorkloadAPISpec := {}
  CompanionCliRootcmd : CliCommand := {}
  CompanionCliSubcmd : CliCommand := {}
  ComponentFiles : List String := []
  Components : List Ptr := []
  deriving DecidableEq, Repr

/-- Go `type WorkloadCollection struct`. -/
structure WorkloadCollection extends WorkloadShared where
  Spec : WorkloadCollectionSpec := {}
  deriving DecidableEq, Repr

/-! ## Validation -/

/-- Go `var ErrMissingRequiredFields`. -/
def ErrMissingRequiredFields : GoError :=
  .new "missing required fields"

/-- The text `fmt` prints for a `[]string` under the verb `%s`: the elements
separated by one blank, between brackets. -/
def fmtStringSlice (xs : List String) : String :=
  "[" ++ " ".intercalate xs ++ "]"

/-- Go `fmt.Errorf("%w: %s", err, fields)`. -/
def errorfFields (err : GoError) (fields : List String) : GoError :=
  .wrap (err.Error ++ ": " ++ fmtStringSlice fields) err

/-- The value of the local variable `missingFields` of
`(*WorkloadCollection).Validate` when its last `if` is reached. -/
def WorkloadCollection.missingFields (c : WorkloadCollection) : List String :=
  let missingFields : List String := []
  let missingFields := if c.Name = "" then missingFields ++ ["name"] else missingFields
  let missingFields :=
    if c.Spec.API.Domain = "" then missingFields ++ ["spec.api.domain"] else missingFields
  let missingFields :=
    if c.Spec.API.Group = "" then missingFields ++ ["spec.api.group"] else missingFields
  let missingFields :=
    if c.Spec.API.Version = "" then missingFields ++ ["spec.api.version"] else missingFields
  let missingFields :=
    if c.Spec.API.Kind = "" then missingFields ++ ["spec.api.kind"] else missingFields
  missingFields

/-- Go `func (c *WorkloadCollection) Validate() error`. -/
def WorkloadCollection.Validate (c : WorkloadCollection) : Option GoError :=
  let missingFields := c.missingFields
  if missingFields.length > 0 then
    some (errorfFields ErrMissingRequiredFields missingFields)
  else
    none

/-- The value of the local variable `missingFields` of
`(*ComponentWorkload).Validate` when its last `if` is reached. -/
def ComponentWorkload.missingFields (c : ComponentWorkload) : List String :=
  let missingFields : List String := []
  let missingFields := if c.Name = "" then missingFields ++ ["name"] else missingFields
  let missingFields :=
    if c.Spec.API.Group = "" then missingFields ++ ["spec.api.group"] else missingFields
  let missingFields :=
    if c.Spec.API.Version = "" then missingFields ++ ["spec.api.version"] else missingFields
  let missingFields :=
    if c.Spec.API.Kind = "" then missingFields ++ ["spec.api.kind"] else missingFields
  missingFields

/-- Go `func (c *ComponentWorkload) Validate() error`. -/
def ComponentWorkload.Validate (c : ComponentWorkload) : Option GoError :=
  let missingFields := c.missingFields
  if missingFields.length > 0 then
    some (errorfFields ErrMissingRequiredFields missingFields)
  else
    none

/-! ## The resource descriptor -/

namespace resource

/-- The type `resource.GVK` of kubebuilder. -/
structure GVK where
  Domain : String
  Group : String
  Version : String
  Kind : String
  deriving DecidableEq, Repr

/-- The type `resource.API` of kubebuilder. -/
structure API where
  CRDVersion : String
  Namespaced : Bool
  deriving DecidableEq, Repr

/-- The type `resource.Resource` of kubebuilder, with the fields that the
composite literal of `GetComponentResource` sets; `API` is a pointer. -/
structure Resource where
  GVK : GVK
  Plural : String
  Path : String
  API : Option API
  Controller : Bool
  deriving DecidableEq, Repr

end resource

/-- Go `fmt.Sprintf("%s/apis/%s/%s", repo, group, version)`. -/
def sprintfAPIPath (repo group version : String) : String :=
  repo ++ "/apis/" ++ group ++ "/" ++ version

/-- Go `func (c *WorkloadCollection) GetComponentResource(domain, repo string,
clusterScoped bool) *resource.Resource`. The function `resource.RegularPlural`
of kubebuilder is the parameter `RegularPlural`. -/
def WorkloadCollection.GetComponentResource (RegularPlural : String → String)
    (c : WorkloadCollection) (domain repo : String) (clusterScoped : Bool) :
    resource.Resource :=
  let namespaced : Bool := if clusterScoped then false else true
  let api : resource.API := { CRDVersion := "v1", Namespaced := namespaced }
  { GVK := {
      Domain := domain,
      Group := c.Spec.API.Group,
      Version := c.Spec.API.Version,
      Kind := c.Spec.API.Kind },
    Plural := RegularPlural c.Spec.API.Kind,
    Path := sprintfAPIPath repo c.Spec.API.Group c.Spec.API.Version,
    API := some api,
    Controller := true }

/-- Go `func (c *ComponentWorkload) GetComponentResource(domain, repo string,
clusterScoped bool) *resource.Resource`. The function `resource.RegularPlural`
of kubebuilder is the parameter `RegularPlural`. -/
def ComponentWorkload.GetComponentResource (RegularPlural : String → String)
    (c : ComponentWorkload) (domain repo : String) (clusterScoped : Bool) :
    resource.Resource :=
  let namespaced : Bool := if clusterScoped then false else true
  let api : resource.API := { CRDVersion := "v1", Namespaced := namespaced }
  { GVK := {
      Domain := domain,
      Group := c.Spec.API.Group,
      Version := c.Spec.API.Version,
      Kind := c.Spec.API.Kind },
    Plural := RegularPlural c.Spec.API.Kind,
    Path := sprintfAPIPath repo c.Spec.API.Group c.Spec.API.Version,
    API := some api,
    Controller := true }

/-! ## Names and companion commands -/

/-- Go constant `defaultCollectionSubcommandName`. -/
def defaultCollectionSubcommandName : String := "collection"

/-- Go constant `defaultCollectionSubcommandDescription`, the format
`Manage %s workload`, applied to its argument. -/
def defaultCollectionSubcommandDescription (kind : String) : String :=
  "Manage " ++ kind ++ " workload"

/-- Go constant `defaultCollectionRootcommandDescription`, the format
`Manage %s collection and components`, applied to its argument. -/
def defaultCollectionRootcommandDescription (kind : String) : String :=
  "Manage " ++ kind ++ " collection and components"

/-- Modelled from the spec: the default description of the command of a
workload that is not a collection (§4.7 and the tests of `SetNames`; the
constant is declared in a file that is not at hand): `Manage %s workload`. -/
def defaultDescription (kind : String) : String :=
  "Manage " ++ kind ++ " workload"

/-- Modelled from the spec: the string helpers that naming calls and that are
not at hand (§4.7): `utils.ToPackageName`, the two case transforms of a command
name that give `VarName` and `FileName`, and the lower-casing of the API kind.
They are parameters of the embedding. -/
structure Naming where
  ToPackageName : String → String
  ToVarName : String → String
  ToFileName : String → String
  ToLower : String → String

/-- Modelled from the spec: interface `WorkloadAPIBuilder` (declared in a file
that is not at hand), as the values of the methods that `collection.go` and
`component.go` list as implementing it. -/
structure WorkloadAPIBuilder where
  GetName : String
  GetPackageName : String
  GetAPIGroup : String
  GetAPIVersion : String
  GetAPIKind : String
  IsClusterScoped : Bool
  IsStandalone : Bool
  IsComponent : Bool
  IsCollection : Bool
  deriving DecidableEq, Repr

/-- Modelled from the spec: method `hasName` of `CliCommand` (§4.7: a command
name is set or unset; declared in a file that is not at hand). -/
def CliCommand.hasName (cli : CliCommand) : Bool :=
  cli.Name != ""

/-- Modelled from the spec: method `hasDescription` of `CliCommand` (§4.7: a
description is empty or not; declared in a file that is not at hand). -/
def CliCommand.hasDescription (cli : CliCommand) : Bool :=
  cli.Description != ""

/-- Modelled from the spec: method `setCommonValues` of `CliCommand` (§4.7;
declared in a file that is not at hand). The role flags follow `isSubcommand`;
an empty name and an empty description take their defaults; `VarName` and
`FileName` are transforms of the name. The defaults are those that
`Test_CollectionSetNames`, `Test_ComponentSetNames` and
`Test_StandaloneSetNames` expect: the subcommand of a collection is named
`collection`, any other command after the lower-cased API kind, and the
descriptions are the three templates over the lower-cased API kind. -/
def CliCommand.setCommonValues (u : Naming) (cli : CliCommand)
    (workload : WorkloadAPIBuilder) (isSubcommand : Bool) : CliCommand :=
  let kind := u.ToLower workload.GetAPIKind
  let name :=
    if cli.hasName then cli.Name
    else if workload.IsCollection && isSubcommand then defaultCollectionSubcommandName
    else kind
  let description :=
    if cli.hasDescription then cli.Description
    else if workload.IsCollection then
      if isSubcommand then defaultCollectionSubcommandDescription kind
      else defaultCollectionRootcommandDescription kind
    else defaultDescription kind
  { Name := name,
    Description := description,
    VarName := u.ToVarName name,
    FileName := u.ToFileName name,
    IsSubcommand := isSubcommand,
    IsRootcommand := !isSubcommand }

/-- Go `func (c *WorkloadCollection) HasRootCmdName() bool`. -/
def WorkloadCollection.HasRootCmdName (c : WorkloadCollection) : Bool :=
  c.Spec.CompanionCliRootcmd.hasName

/-- Go `func (c *WorkloadCollection) GetName() string`. -/
def WorkloadCollection.GetName (c : WorkloadCollection) : String := c.Name

/-- Go `func (c *WorkloadCollection) GetPackageName() string`. -/
def WorkloadCollection.GetPackageName (c : WorkloadCollection) : String := c.PackageName

/-- Go `func (c *WorkloadCollection) GetAPIGroup() string`. -/
def WorkloadCollection.GetAPIGroup (c : WorkloadCollection) : String := c.Spec.API.Group

/-- Go `func (c *WorkloadCollection) GetAPIVersion() string`. -/
def WorkloadCollection.GetAPIVersion (c : WorkloadCollection) : String := c.Spec.API.Version

/-- Go `func (c *WorkloadCollection) GetAPIKind() string`. -/
def WorkloadCollection.GetAPIKind (c : WorkloadCollection) : String := c.Spec.API.Kind

/-- Go `func (c *WorkloadCollection) IsClusterScoped() bool`. -/
def WorkloadCollection.IsClusterScoped (c : WorkloadCollection) : Bool :=
  c.Spec.API.ClusterScoped

/-- Go `func (c *WorkloadCollection) IsStandalone() bool`. -/
def WorkloadCollection.IsStandalone (_c : WorkloadCollection) : Bool := false

/-- Go `func (c *WorkloadCollection) IsComponent() bool`. -/
def WorkloadCollection.IsComponent (_c : WorkloadCollection) : Bool := false

/-- Go `func (c *WorkloadCollection) IsCollection() bool`. -/
def WorkloadCollection.IsCollection (_c : WorkloadCollection) : Bool := true

/-- A collection seen through the interface `WorkloadAPIBuilder`. -/
def WorkloadCollection.asAPIBuilder (c : WorkloadCollection) : WorkloadAPIBuilder :=
  { GetName := c.GetName,
    GetPackageName := c.GetPackageName,
    GetAPIGroup := c.GetAPIGroup,
    GetAPIVersion := c.GetAPIVersion,
    GetAPIKind := c.GetAPIKind,
    IsClusterScoped := c.IsClusterScoped,
    IsStandalone := c.IsStandalone,
    IsComponent := c.IsComponent,
    IsCollection := c.IsCollection }

/-- Go `func (c *WorkloadCollection) SetNames()`; returns the receiver after
the call. -/
def WorkloadCollection.SetNames (u : Naming) (c : WorkloadCollection) :
    WorkloadCollection :=
  let c : WorkloadCollection := { c with PackageName := u.ToPackageName c.Name }
  if c.HasRootCmdName then
    let c : WorkloadCollection := { c with Spec := { c.Spec with
      CompanionCliRootcmd := c.Spec.CompanionCliRootcmd.setCommonValues u c.asAPIBuilder false } }
    let c : WorkloadCollection := { c with Spec := { c.Spec with
      CompanionCliSubcmd := c.Spec.CompanionCliSubcmd.setCommonValues u c.asAPIBuilder true } }
    c
  else
    c

/-- Go `func (c *ComponentWorkload) HasRootCmdName() bool`. -/
def ComponentWorkload.HasRootCmdName (_c : ComponentWorkload) : Bool := false

/-- Go `func (c *ComponentWorkload) GetName() string`. -/
def ComponentWorkload.GetName (c : ComponentWorkload) : String := c.Name

/-- Go `func (c *ComponentWorkload) GetPackageName() string`. -/
def ComponentWorkload.GetPackageName (c : ComponentWorkload) : String := c.PackageName

/-- Go `func (c *ComponentWorkload) GetAPIGroup() string`. -/
def ComponentWorkload.GetAPIGroup (c : ComponentWorkload) : String := c.Spec.API.Group

/-- Go `func (c *ComponentWorkload) GetAPIVersion() string`. -/
def ComponentWorkload.GetAPIVersion (c : ComponentWorkload) : String := c.Spec.API.Version

/-- Go `func (c *ComponentWorkload) GetAPIKind() string`. -/
def ComponentWorkload.GetAPIKind (c : ComponentWorkload) : String := c.Spec.API.Kind

/-- Go `func (c *ComponentWorkload) IsClusterScoped() bool`. -/
def ComponentWorkload.IsClusterScoped (c : ComponentWorkload) : Bool :=
  c.Spec.API.ClusterScoped

/-- Go `func (*ComponentWorkload) IsStandalone() bool`. -/
def ComponentWorkload.IsStandalone (_c : ComponentWorkload) : Bool := false

/-- Go `func (*ComponentWorkload) IsComponent() bool`. -/
def ComponentWorkload.IsComponent (_c : ComponentWorkload) : Bool := true

/-- Go `func (*ComponentWorkload) IsCollection() bool`. -/
def ComponentWorkload.IsCollection (_c : ComponentWorkload) : Bool := false

/-- A component seen through the interface `WorkloadAPIBuilder`. -/
def ComponentWorkload.asAPIBuilder (c : ComponentWorkload) : WorkloadAPIBuilder :=
  { GetName := c.GetName,
    GetPackageName := c.GetPackageName,
    GetAPIGroup := c.GetAPIGroup,
    GetAPIVersion := c.GetAPIVersion,
    GetAPIKind := c.GetAPIKind,
    IsClusterScoped := c.IsClusterScoped,
    IsStandalone := c.IsStandalone,
    IsComponent := c.IsComponent,
    IsCollection := c.IsCollection }

/-- Go `func (c *ComponentWorkload) SetNames()`; returns the receiver after the
call. -/
def ComponentWorkload.SetNames (u : Naming) (c : ComponentWorkload) :
    ComponentWorkload :=
  let c : ComponentWorkload := { c with PackageName := u.ToPackageName c.Name }
  { c with Spec := { c.Spec with
      CompanionCliSubcmd := c.Spec.CompanionCliSubcmd.setCommonValues u c.asAPIBuilder true } }

/-- Lower-casing of a string, character by character. -/
def lowerChars (s : String) : String :=
  ⟨s.data.map Char.toLower⟩

/-- A naming for the evaluation of examples: lower-casing, with hyphens
dropped for the package name and the first letter raised for `VarName`. -/
def exampleNaming : Naming :=
  { ToPackageName := fun s => ⟨(lowerChars s).data.filter (fun ch => ch != '-')⟩,
    ToVarName := fun s =>
      match s.data with
      | [] => ""
      | ch :: rest => ⟨ch.toUpper :: rest⟩,
    ToFileName := lowerChars,
    ToLower := lowerChars }

/-- Modelled from the spec: `utils.ToPackageName` (§4.7; package
`internal/utils` is not at hand): the name with its separators removed,
lower-cased. The separator is the hyphen, as in the pair `shared-name`,
`sharedname` of the tests; the lower-casing is that of the letters A to Z. -/
def ToPackageName (name : String) : String :=
  lowerChars ⟨name.data.filter (fun ch => ch != '-')⟩

/-! ## Components of a workload -/

/-- Go `var ErrNoComponentsOnComponent`. -/
def ErrNoComponentsOnComponent : GoError :=
  .new "cannot set component workloads on a component workload - only on collections"

/-- Go `func (c *WorkloadCollection) SetComponents(components
[]*ComponentWorkload) error`; returns the receiver after the call and the
error. A nil slice and an empty slice are both the empty list. -/
def WorkloadCollection.SetComponents (c : WorkloadCollection) (components : List Ptr) :
    WorkloadCollection × Option GoError :=
  ({ c with Spec := { c.Spec with Components := components } }, none)

/-- Go `func (c *WorkloadCollection) GetComponents() []*ComponentWorkload`. -/
def WorkloadCollection.GetComponents (c : WorkloadCollection) : List Ptr :=
  c.Spec.Components

/-- Go `func (*ComponentWorkload) SetComponents(components
[]*ComponentWorkload) error`; returns the receiver after the call and the
error. -/
def ComponentWorkload.SetComponents (c : ComponentWorkload) (_components : List Ptr) :
    ComponentWorkload × Option GoError :=
  (c, some ErrNoComponentsOnComponent)

/-- Go `func (*ComponentWorkload) GetComponents() []*ComponentWorkload`. -/
def ComponentWorkload.GetComponents (_c : ComponentWorkload) : List Ptr :=
  []

/-! ## init_config.go -/

/-- Go `var ErrConvertArrayInterface`. -/
def ErrConvertArrayInterface : GoError :=
  .new "unable to convert to []interface{}"

/-- Go `var ErrConvertMapStringInterface`. -/
def ErrConvertMapStringInterface : GoError :=
  .new "unable to convert to map[string]interface{}"

/-- Go `var ErrConvertString`. -/
def ErrConvertString : GoError :=
  .new "unable to convert to string"

/-- Go `var ErrFileExists`. -/
def ErrFileExists : GoError :=
  .new "force was not requested and file exists"

/-- Go `var ErrWriteFile`. -/
def ErrWriteFile : GoError :=
  .new "unable to write to file"

/-- Go `var ErrWriteStdout`. -/
def ErrWriteStdout : GoError :=
  .new "unable to write to stdout"

/-- A value held in a Go `interface{}` of a decoded YAML document: `nil`, a
scalar, a `[]string`, a `[]interface{}` or a `map[string]interface{}`. -/
inductive GoValue where
  | nil
  | bool (b : Bool)
  | int (n : Int)
  | string (s : String)
  | strings (xs : List String)
  | slice (xs : List GoValue)
  | map (m : List (String × GoValue))

/-- Go `m[key]` on a map with string keys: the value and whether the key is
present. -/
def mapIndex {α : Type} (m : List (String × α)) (key : String) : Option α :=
  m.lookup key

/-- Go `m[key] = value` on a map with string keys. -/
def mapAssign {α : Type} : List (String × α) → String → α → List (String × α)
  | [], key, value => [(key, value)]
  | (k, v) :: rest, key, value =>
    if key = k then (k, value) :: rest else (k, v) :: mapAssign rest key value

/-- The loop of `mutateResources` over `resourceObjs`: the file names of the
items in order, or the error of the first item that is not a map or whose
`filename` is not a string. -/
def convertResourceObjs : List GoValue → Except GoError (List String)
  | [] => .ok []
  | resource :: rest =>
    match resource with
    | .map resourceMap =>
      match mapIndex resourceMap "filename" with
      | some (.string filename) =>
        match convertResourceObjs rest with
        | .ok resources => .ok (filename :: resources)
        | .error err => .error err
      | _ =>
        .error (.wrap (ErrConvertString.Error ++ "; error converting spec.resources.filename")
          ErrConvertString)
    | _ =>
      .error (.wrap (ErrConvertMapStringInterface.Error ++ "; error converting spec.resources item")
        ErrConvertMapStringInterface)

/-- Go `func mutateResources(yamlData map[string]interface{}) error`; returns
the document after the call and the error. A Go map is a reference: the
assignment to `specField["resources"]` is seen through `yamlData["spec"]`, so
the changed `specField` is stored back under `spec`. -/
def mutateResources (yamlData : List (String × GoValue)) :
    List (String × GoValue) × Option GoError :=
  match mapIndex yamlData "spec" with
  | some (.map specField) =>
    match mapIndex specField "resources" with
    | some (.slice resourceObjs) =>
      match convertResourceObjs resourceObjs with
      | .ok resources =>
        (mapAssign yamlData "spec" (.map (mapAssign specField "resources" (.strings resources))),
          none)
      | .error err => (yamlData, some err)
    | _ =>
      (yamlData,
        some (.wrap (ErrConvertArrayInterface.Error ++ "; error converting spec.resources")
          ErrConvertArrayInterface))
  | _ =>
    (yamlData,
      some (.wrap (ErrConvertMapStringInterface.Error ++ "; error converting workload config spec")
        ErrConvertMapStringInterface))

/-- Modelled from the spec: type `StandaloneWorkloadSpec` (§3; `standalone.go`
is not at hand), with the fields that the composite literals of
`Test_StandaloneSetNames` name and the shared `WorkloadSpec`. -/
structure StandaloneWorkloadSpec extends WorkloadSpec where
  API : WorkloadAPISpec := {}
  CompanionCliRootcmd : CliCommand := {}
  deriving DecidableEq, Repr

/-- Modelled from the spec: type `StandaloneWorkload` (§3; `standalone.go` is
not at hand). -/
structure StandaloneWorkload extends WorkloadShared where
  Spec : StandaloneWorkloadSpec := {}
  deriving DecidableEq, Repr

/-- Modelled from the spec: `(*StandaloneWorkload).Validate` (§8;
`standalone.go` is not at hand): the name and the API group, version and kind
are required, and the missing ones are reported with
`ErrMissingRequiredFields`. -/
def StandaloneWorkload.Validate (s : StandaloneWorkload) : Option GoError :=
  let missingFields : List String :=
    (if s.Name = "" then ["name"] else []) ++
    (if s.Spec.API.Group = "" then ["spec.api.group"] else []) ++
    (if s.Spec.API.Version = "" then ["spec.api.version"] else []) ++
    (if s.Spec.API.Kind = "" then ["spec.api.kind"] else [])
  match missingFields with
  | [] => none
  | field :: fields => some (errorfFields ErrMissingRequiredFields (field :: fields))

/-- Modelled from the spec: interface `WorkloadInitializer` (declared in a file
of the package that is not at hand), as the workloads that implement it and are
stored in `InitConfigOptions`: a collection, a component or a standalone
workload. -/
inductive WorkloadInitializer where
  | collection (c : WorkloadCollection)
  | component (c : ComponentWorkload)
  | standalone (s : StandaloneWorkload)
  deriving DecidableEq, Repr

/-- Go `type InitConfigOptions struct`. -/
structure InitConfigOptions where
  Path : String := ""
  Force : Bool := false
  WorkloadConfig : Option WorkloadInitializer := none
  deriving DecidableEq, Repr

/-- The state of the operating system that `outputFile` acts on: the files by
path with their content, the paths at which the system refuses to write, the
text written to standard output so far and whether standard output refuses
writes. -/
structure FileSystem where
  files : List (String × String) := []
  refused : List String := []
  stdout : String := ""
  stdoutRefused : Bool := false
  deriving DecidableEq, Repr

/-- The error of the system for a path that does not exist. -/
def ErrNotExist : GoError :=
  .new "file does not exist"

/-- The error of the system for a write that it refuses. -/
def ErrPermission : GoError :=
  .new "permission denied"

/-- Go `os.Stat(name)`, by its error: nil when there is a file at the path. -/
def osStat (fs : FileSystem) (name : String) : Option GoError :=
  match mapIndex fs.files name with
  | some _ => none
  | none => some ErrNotExist

/-- Go `os.WriteFile(name, data, perm)`: the system after the call and the
error. A refused write leaves the files as they are. -/
def osWriteFile (fs : FileSystem) (name : String) (data : String) :
    FileSystem × Option GoError :=
  if name ∈ fs.refused then (fs, some ErrPermission)
  else ({ fs with files := mapAssign fs.files name data }, none)

/-- Go `os.Stdout.WriteString(s)`: the system after the call and the error. -/
def osStdoutWriteString (fs : FileSystem) (s : String) : FileSystem × Option GoError :=
  if fs.stdoutRefused then (fs, some ErrPermission)
  else ({ fs with stdout := fs.stdout ++ s }, none)

/-- The last statements of `outputFile`: the call of `os.WriteFile` and what is
returned after it. -/
def outputFileWrite (fs : FileSystem) (options : InitConfigOptions) (data : String) :
    FileSystem × Option GoError :=
  match osWriteFile fs options.Path data with
  | (fs1, some err) =>
    (fs1, some (.wrap (err.Error ++ "; " ++ ErrWriteFile.Error ++ " at location " ++
      options.Path) err))
  | (fs1, none) => (fs1, none)

/-- Go `func outputFile(options *InitConfigOptions, data []byte) error`, over
the state of the system; returns that state after the call and the error. -/
def outputFile (fs : FileSystem) (options : InitConfigOptions) (data : String) :
    FileSystem × Option GoError :=
  if options.Path = "-" then
    match osStdoutWriteString fs data with
    | (fs1, some err) => (fs1, some (.wrap (err.Error ++ "; " ++ ErrWriteStdout.Error) err))
    | (fs1, none) => (fs1, none)
  else if osStat fs options.Path = none then
    if !options.Force then
      (fs, some (.wrap (ErrFileExists.Error ++ " at location " ++ options.Path) ErrFileExists))
    else
      outputFileWrite fs options data
  else
    outputFileWrite fs options data

/-- The file name that the loop of `mutateResources` reads from an item of
`spec.resources`: present when the item is a map whose `filename` is a
string. -/
def GoValue.resourceFilename : GoValue → Option String
  | .map resourceMap =>
    match mapIndex resourceMap "filename" with
    | some (.string filename) => some filename
    | _ => none
  | _ => none

/-- Whether a value is a `map[string]interface{}`. -/
def GoValue.isMap : GoValue → Bool
  | .map _ => true
  | _ => false

/-! ## Construction of workloads -/

/-- Go `func (c *WorkloadCollection) GetWorkloadKind() WorkloadKind`. -/
def WorkloadCollection.GetWorkloadKind (c : WorkloadCollection) : WorkloadKind :=
  c.Kind

/-- Go `func (c *ComponentWorkload) GetWorkloadKind() WorkloadKind`. -/
def ComponentWorkload.GetWorkloadKind (c : ComponentWorkload) : WorkloadKind :=
  c.Kind

/-- Go `func NewWorkloadCollection(name string, spec WorkloadAPISpec,
componentFiles []string) *WorkloadCollection`. -/
def NewWorkloadCollection (name : String) (spec : WorkloadAPISpec)
    (componentFiles : List String) : WorkloadCollection :=
  { Kind := WorkloadKindCollection,
    Name := name,
    Spec := {
      API := spec,
      ComponentFiles := componentFiles } }

/-- Modelled from the spec: `getResourcesFromFiles` (§3, §4.2; declared in a
file of the package that is not at hand): one manifest reference per file, in
the order of the files. -/
def getResourcesFromFiles (resourceFiles : List String) : List Resource :=
  resourceFiles.map (fun resourceFile => { FileName := resourceFile })

/-- Go `func NewComponentWorkload(name string, spec WorkloadAPISpec,
resourceFiles, dependencies []string) *ComponentWorkload`. The value of
`*NewSampleAPISpec()`, a function declared in a file that is not at hand, is
the parameter `NewSampleAPISpec`. The body does not read `spec`. -/
def NewComponentWorkload (NewSampleAPISpec : WorkloadAPISpec) (name : String)
    (_spec : WorkloadAPISpec) (resourceFiles dependencies : List String) :
    ComponentWorkload :=
  { Kind := WorkloadKindComponent,
    Name := name,
    Spec := {
      API := NewSampleAPISpec,
      Resources := getResourcesFromFiles resourceFiles,
      Dependencies := dependencies } }

/-! ## WriteConfig -/

/-- The method `Validate` of the interface `WorkloadInitializer`, by the
workload that implements it. -/
def WorkloadInitializer.Validate : WorkloadInitializer → Option GoError
  | .collection c => c.Validate
  | .component c => c.Validate
  | .standalone s => s.Validate

/-- The method `GetWorkloadKind` of the interface `WorkloadInitializer`, by the
workload that implements it. -/
def WorkloadInitializer.GetWorkloadKind : WorkloadInitializer → WorkloadKind
  | .collection c => c.GetWorkloadKind
  | .component c => c.GetWorkloadKind
  | .standalone s => s.Kind

/-- The outcome of a call that may panic: the value it returns or the value it
panics with. -/
inductive Outcome (α : Type) where
  | returns (value : α)
  | panics (value : GoError)
  deriving DecidableEq, Repr

/-- The run-time error of a method call on a nil interface. -/
def ErrNilDereference : GoError :=
  .new "runtime error: invalid memory address or nil pointer dereference"

/-- The functions of `gopkg.in/yaml.v3` that `WriteConfig` and `mutateConfig`
call, parameters of the embedding: `yaml.Marshal` of the workload and of the
generic document, `yaml.Unmarshal` into a generic document and into a
`yaml.Node`, and the encoder with its indentation. -/
structure YamlLib where
  Marshal : WorkloadInitializer → Except GoError String
  UnmarshalMap : String → Except GoError (List (String × GoValue))
  MarshalMap : List (String × GoValue) → Except GoError String
  UnmarshalNode : String → Except GoError YamlNode
  Encode : Nat → YamlNode → Except GoError String

/-- Go constant `indentLevel`. -/
def indentLevel : Nat := 2

/-- Go `func mutateConfig(workloadConfig WorkloadInitializer) ([]byte,
error)`. -/
def mutateConfig (yaml : YamlLib) (workloadConfig : WorkloadInitializer) :
    Except GoError String :=
  match yaml.Marshal workloadConfig with
  | .error err =>
    .error (.wrap (err.Error ++ "; unable to marshal workload config as []byte") err)
  | .ok rawData =>
    match yaml.UnmarshalMap rawData with
    | .error err =>
      .error (.wrap (err.Error ++ "; unable to unmarshal workload config as yaml.Node") err)
    | .ok yamlData =>
      let yamlData :=
        mapAssign yamlData "kind" (GoValue.string workloadConfig.GetWorkloadKind.String)
      match mutateResources yamlData with
      | (_, some err) =>
        .error (.wrap (err.Error ++ "; unable to convert resources object to string array")
          err)
      | (yamlData, none) =>
        match yaml.MarshalMap yamlData with
        | .error err =>
          .error (.wrap (err.Error ++ "; unable to marshal workload config as []byte") err)
        | .ok yamlBytes => .ok yamlBytes

/-- Go `func WriteConfig(options *InitConfigOptions) error`, over the state of
the system; returns that state after the call and the error, or panics when
`options.WorkloadConfig` is nil. -/
def WriteConfig (yaml : YamlLib) (fs : FileSystem) (options : InitConfigOptions) :
    Outcome (FileSystem × Option GoError) :=
  match options.WorkloadConfig with
  | none => .panics ErrNilDereference
  | some workloadConfig =>
    match workloadConfig.Validate with
    | some err => .returns (fs, some (.wrap (err.Error ++ "; invalid configuration") err))
    | none =>
      match mutateConfig yaml workloadConfig with
      | .error err =>
        .returns (fs, some (.wrap (err.Error ++ "; unable to mutate configuration fields") err))
      | .ok yamlBytes =>
        match yaml.UnmarshalNode yamlBytes with
        | .error err =>
          .returns (fs,
            some (.wrap (err.Error ++ "; unable to unmarshal workload config as yaml.Node") err))
        | .ok yamlNode =>
          match yaml.Encode indentLevel yamlNode with
          | .error err =>
            .returns (fs, some (.wrap (err.Error ++ "; unable to encode yaml") err))
          | .ok buf => .returns (outputFile fs options buf)

/-! ## pkg/cli/init_config.go -/

namespace cobra

/-- A flag of a command (package `pflag`), by what `StringVarP` and `BoolVarP`
register: name, shorthand, default value as text and usage. -/
structure Flag where
  Name : String
  Shorthand : String
  DefValue : String
  Usage : String
  deriving DecidableEq, Repr

/-- The type `cobra.Command`, with the fields that `init_config.go` sets: the
three texts, the function `RunE` by the error it captures (none when no
function is set), the subcommands and the flags. -/
inductive Command where
  | mk (Use Short Long : String) (RunE : Option GoError) (commands : List Command)
      (flags : List Flag)

/-- The field `Use` of a command. -/
def Command.Use : Command → String
  | .mk use _ _ _ _ _ => use

/-- The field `RunE` of a command. -/
def Command.RunE : Command → Option GoError
  | .mk _ _ _ runE _ _ => runE

/-- The subcommands of a command. -/
def Command.commands : Command → List Command
  | .mk _ _ _ _ commands _ => commands

/-- The flags of a command. -/
def Command.flags : Command → List Flag
  | .mk _ _ _ _ _ flags => flags

/-- The assignment `cmd.RunE = f`, with `f` given by the error it captures. -/
def Command.setRunE : Command → Option GoError → Command
  | .mk use short long _ commands flags, runE => .mk use short long runE commands flags

/-- The method `AddCommand` of cobra with one argument: the command becomes
the last subcommand. -/
def Command.AddCommand : Command → Command → Command
  | .mk use short long runE commands flags, sub =>
    .mk use short long runE (commands ++ [sub]) flags

/-- The registration of a flag on `cmd.Flags()`. -/
def Command.addFlag : Command → Flag → Command
  | .mk use short long runE commands flags, flag =>
    .mk use short long runE commands (flags ++ [flag])

end cobra

/-- Go `var ErrInvalidSubCommandName`. -/
def ErrInvalidSubCommandName : GoError :=
  .new "invalid subcommand name"

/-- Go `var ErrInitConfigCollectionSubcommand`. -/
def ErrInitConfigCollectionSubcommand : GoError :=
  .new "error executing `init-config collection` subcommand"

/-- Go `var ErrInitConfigComponentSubcommand`. -/
def ErrInitConfigComponentSubcommand : GoError :=
  .new "error executing `init-config component` subcommand"

/-- Go `var ErrInitConfigStandaloneSubcommand`. -/
def ErrInitConfigStandaloneSubcommand : GoError :=
  .new "error executing `init-config standalone` subcommand"

/-- Go constant `initConfigName`. -/
def initConfigName : String := "init-config"

/-- Go constant `initConfigDescription`. -/
def initConfigDescription : String := "Initialize a workload configuration"

/-- Go constant `collectionSubCommandName`. -/
def collectionSubCommandName : String := "collection"

/-- Go constant `componentSubCommandName`. -/
def componentSubCommandName : String := "component"

/-- Go constant `standaloneSubCommandName`. -/
def standaloneSubCommandName : String := "standalone"

/-- Go constant `collectionSubCommandDescription`. -/
def collectionSubCommandDescription : String :=
  "initialize a collection workload configuration"

/-- Go constant `componentSubCommandDescription`. -/
def componentSubCommandDescription : String :=
  "initialize a component workload configuration"

/-- Go constant `standaloneSubCommandDescription`. -/
def standaloneSubCommandDescription : String :=
  "initialize a standalone workload configuration"

/-- Go `type initConfigSubCommand struct`; `options` is a pointer, held by
value. -/
structure initConfigSubCommand where
  subCommandName : String
  subCommandDescription : String
  options : InitConfigOptions
  deriving DecidableEq, Repr

/-- The values of `newCollectionConfigSample()`, `newComponentConfigSample()`
and `newStandaloneConfigSample()`, parameters of the embedding: their bodies
call `NewSampleAPISpec`, `SetDefaults`, `ResourcesFromFiles` and
`NewStandaloneWorkload`, which are declared in files that are not at hand. -/
structure ConfigSamples where
  newCollectionConfigSample : WorkloadInitializer
  newComponentConfigSample : WorkloadInitializer
  newStandaloneConfigSample : WorkloadInitializer

/-- Go `func newInitConfigSubCommand(subCmdName, subCmdDescription string)
*initConfigSubCommand`. -/
def newInitConfigSubCommand (subCmdName subCmdDescription : String) : initConfigSubCommand :=
  { subCommandName := subCmdName,
    subCommandDescription := subCmdDescription,
    options := {} }

/-- Go `func (i *initConfigSubCommand) addCommonFlags(cmd *cobra.Command)
error`; returns the receiver and the command after the call and the error.
`StringVarP` and `BoolVarP` store the default value in the variable they are
given and register the flag. -/
def initConfigSubCommand.addCommonFlags (i : initConfigSubCommand) (cmd : cobra.Command) :
    initConfigSubCommand × cobra.Command × Option GoError :=
  let i : initConfigSubCommand := { i with options := { i.options with Path := "-" } }
  let cmd := cmd.addFlag
    { Name := "path", Shorthand := "p", DefValue := "-",
      Usage := "file path to initialize workload at (default: stdout)" }
  let i : initConfigSubCommand := { i with options := { i.options with Force := false } }
  let cmd := cmd.addFlag
    { Name := "force", Shorthand := "f", DefValue := "false",
      Usage := "override the config if it already exists" }
  (i, cmd, none)

/-- The `switch` of `addInitSubCommand` on `subCommand.Use`: the values of
`returnErr`, of the receiver and of `err` after it. -/
def initConfigSubCommand.switchOnUse (samples : ConfigSamples) (i : initConfigSubCommand)
    (use : String) : Option GoError × initConfigSubCommand × Option GoError :=
  if use = collectionSubCommandName then
    (some ErrInitConfigCollectionSubcommand,
      { i with options := { i.options with
          WorkloadConfig := some samples.newCollectionConfigSample } },
      none)
  else if use = componentSubCommandName then
    (some ErrInitConfigComponentSubcommand,
      { i with options := { i.options with
          WorkloadConfig := some samples.newComponentConfigSample } },
      none)
  else if use = standaloneSubCommandName then
    (some ErrInitConfigStandaloneSubcommand,
      { i with options := { i.options with
          WorkloadConfig := some samples.newStandaloneConfigSample } },
      none)
  else
    (none, i, some (.wrap (ErrInvalidSubCommandName.Error ++ " - " ++ use)
      ErrInvalidSubCommandName))

/-- Go `func (i *initConfigSubCommand) addInitSubCommand(parentCommand
*cobra.Command) error`; returns the receiver and the parent command after the
call and the error. The parent holds a pointer to the subcommand, so the flags
that `addCommonFlags` registers after `AddCommand` are those of the subcommand
of the parent; the subcommand is added with them. -/
def initConfigSubCommand.addInitSubCommand (samples : ConfigSamples)
    (i : initConfigSubCommand) (parentCommand : cobra.Command) :
    initConfigSubCommand × cobra.Command × Option GoError :=
  let subCommand : cobra.Command :=
    .mk i.subCommandName i.subCommandDescription i.subCommandDescription none [] []
  match i.switchOnUse samples subCommand.Use with
  | (_, i1, some err) => (i1, parentCommand, some err)
  | (returnErr, i1, none) =>
    let subCommand := subCommand.setRunE returnErr
    match i1.addCommonFlags subCommand with
    | (i2, subCommand, result) => (i2, parentCommand.AddCommand subCommand, result)

/-- The map literal over which `NewInitConfigCmd` ranges. -/
def initConfigSubCommands : List (String × String) := [
  (collectionSubCommandName, collectionSubCommandDescription),
  (componentSubCommandName, componentSubCommandDescription),
  (standaloneSubCommandName, standaloneSubCommandDescription)]

/-- The loop of `NewInitConfigCmd` over the entries of the map in the order of
the iteration: the command after the loop, or the panic with the error of
`addInitSubCommand`. -/
def newInitConfigCmdLoop (samples : ConfigSamples) :
    List (String × String) → cobra.Command → Outcome cobra.Command
  | [], cmd => .returns cmd
  | (subCommandName, subCommandDescription) :: rest, cmd =>
    match (newInitConfigSubCommand subCommandName subCommandDescription).addInitSubCommand
      samples cmd with
    | (_, _, some err) => .panics err
    | (_, cmd1, none) => newInitConfigCmdLoop samples rest cmd1

/-- Go `func NewInitConfigCmd() *cobra.Command`. The order in which `range`
visits the entries of a map is not fixed; `order` is the list of the entries in
the order of the visit, a permutation of `initConfigSubCommands`. -/
def NewInitConfigCmd (samples : ConfigSamples) (order : List (String × String)) :
    Outcome cobra.Command :=
  newInitConfigCmdLoop samples order
    (.mk initConfigName initConfigDescription initConfigDescription none [] [])

/-! ## Theorems -/

/-- The lookup in `workloadKindsMap`, case by case on the key. -/
theorem workloadKindsMap_lookup (s : String) :
    workloadKindsMap.lookup s =
      if s = "StandaloneWorkload" then some WorkloadKindStandalone
      else if s = "WorkloadCollection" then some WorkloadKindCollection
      else if s = "ComponentWorkload" then some WorkloadKindComponent
      else none := by
  unfold workloadKindsMap
  by_cases h1 : s = "StandaloneWorkload"
  · subst h1; rfl
  · by_cases h2 : s = "WorkloadCollection"
    · subst h2; rfl
    · by_cases h3 : s = "ComponentWorkload"
      · subst h3; rfl
      · have e1 : (s == "StandaloneWorkload") = false := by simpa using h1
        have e2 : (s == "WorkloadCollection") = false := by simpa using h2
        have e3 : (s == "ComponentWorkload") = false := by simpa using h3
        simp [List.lookup, h1, h2, h3, e1, e2, e3]

/-! ### Validation -/

/-- The missing fields of a collection are the labels of its empty required
fields, in the order of the checks. -/
theorem collection_missingFields_eq (c : WorkloadCollection) :
    c.missingFields =
      ([("name", c.Name), ("spec.api.domain", c.Spec.API.Domain),
        ("spec.api.group", c.Spec.API.Group), ("spec.api.version", c.Spec.API.Version),
        ("spec.api.kind", c.Spec.API.Kind)].filter (fun p => p.2 = "")).map Prod.fst := by
  unfold WorkloadCollection.missingFields
  by_cases h1 : c.Name = "" <;> by_cases h2 : c.Spec.API.Domain = "" <;>
    by_cases h3 : c.Spec.API.Group = "" <;> by_cases h4 : c.Spec.API.Version = "" <;>
    by_cases h5 : c.Spec.API.Kind = "" <;> simp [h1, h2, h3, h4, h5, List.filter]

/-- The missing fields of a component are the labels of its empty required
fields, in the order of the checks. -/
theorem component_missingFields_eq (c : ComponentWorkload) :
    c.missingFields =
      ([("name", c.Name),
        ("spec.api.group", c.Spec.API.Group), ("spec.api.version", c.Spec.API.Version),
        ("spec.api.kind", c.Spec.API.Kind)].filter (fun p => p.2 = "")).map Prod.fst := by
  unfold ComponentWorkload.missingFields
  by_cases h1 : c.Name = "" <;>
    by_cases h3 : c.Spec.API.Group = "" <;> by_cases h4 : c.Spec.API.Version = "" <;>
    by_cases h5 : c.Spec.API.Kind = "" <;> simp [h1, h3, h4, h5, List.filter]

/-- An error made by `errorfFields` wraps the error it was given. -/
theorem errorfFields_Is (err : GoError) (fields : List String) :
    (errorfFields err fields).Is err = true := by
  cases err <;> simp [errorfFields, GoError.Is]

/-- C1: `Validate` of a collection returns nil exactly when the name and the
API domain, group, version and kind are all non-empty. -/
theorem collection_validate_nil_iff (c : WorkloadCollection) :
    c.Validate = none ↔
      (c.Name ≠ "" ∧ c.Spec.API.Domain ≠ "" ∧ c.Spec.API.Group ≠ "" ∧
        c.Spec.API.Version ≠ "" ∧ c.Spec.API.Kind ≠ "") := by
  unfold WorkloadCollection.Validate WorkloadCollection.missingFields
  by_cases h1 : c.Name = "" <;> by_cases h2 : c.Spec.API.Domain = "" <;>
    by_cases h3 : c.Spec.API.Group = "" <;> by_cases h4 : c.Spec.API.Version = "" <;>
    by_cases h5 : c.Spec.API.Kind = "" <;> simp [h1, h2, h3, h4, h5]

/-- C2: `Validate` of a component returns nil exactly when the name and the
API group, version and kind are all non-empty, and replacing the API domain by
any other value leaves the result of `Validate` the same. -/
theorem component_validate_nil_iff (c : ComponentWorkload) :
    (c.Validate = none ↔
      (c.Name ≠ "" ∧ c.Spec.API.Group ≠ "" ∧ c.Spec.API.Version ≠ "" ∧
        c.Spec.API.Kind ≠ "")) ∧
    (∀ domain : String,
      ComponentWorkload.Validate
        { c with Spec := { c.Spec with API := { c.Spec.API with Domain := domain } } } =
      c.Validate) := by
  refine ⟨?_, fun domain => rfl⟩
  unfold ComponentWorkload.Validate ComponentWorkload.missingFields
  by_cases h1 : c.Name = "" <;>
    by_cases h3 : c.Spec.API.Group = "" <;> by_cases h4 : c.Spec.API.Version = "" <;>
    by_cases h5 : c.Spec.API.Kind = "" <;> simp [h1, h3, h4, h5]

/-- The labels of the required fields of a collection, in the order of the
checks of `Validate`. -/
theorem collection_missingFields_sublist (c : WorkloadCollection) :
    c.missingFields.Sublist
      ["name", "spec.api.domain", "spec.api.group", "spec.api.version", "spec.api.kind"] := by
  rw [collection_missingFields_eq]
  exact (List.filter_sublist _).map Prod.fst

/-- The labels of the required fields of a component, in the order of the
checks of `Validate`. -/
theorem component_missingFields_sublist (c : ComponentWorkload) :
    c.missingFields.Sublist
      ["name", "spec.api.group", "spec.api.version", "spec.api.kind"] := by
  rw [component_missingFields_eq]
  exact (List.filter_sublist _).map Prod.fst

/-- C3: when `Validate` of a collection or of a component returns an error, the
error wraps `ErrMissingRequiredFields`, its text is that of the sentinel
followed by the printed list of missing fields, and that list holds the label
of a required field exactly when the field is empty, each label once and in the
order name, domain (collections only), group, version, kind. -/
theorem validate_error_reports_missing_fields (c : WorkloadCollection)
    (k : ComponentWorkload) :
    (∀ e : GoError, c.Validate = some e →
      e.Is ErrMissingRequiredFields = true ∧
      e = errorfFields ErrMissingRequiredFields c.missingFields ∧
      e.Error = "missing required fields: [" ++ " ".intercalate c.missingFields ++ "]" ∧
      ("name" ∈ c.missingFields ↔ c.Name = "") ∧
      ("spec.api.domain" ∈ c.missingFields ↔ c.Spec.API.Domain = "") ∧
      ("spec.api.group" ∈ c.missingFields ↔ c.Spec.API.Group = "") ∧
      ("spec.api.version" ∈ c.missingFields ↔ c.Spec.API.Version = "") ∧
      ("spec.api.kind" ∈ c.missingFields ↔ c.Spec.API.Kind = "") ∧
      c.missingFields.Nodup ∧
      c.missingFields.Sublist
        ["name", "spec.api.domain", "spec.api.group", "spec.api.version", "spec.api.kind"]) ∧
    (∀ e : GoError, k.Validate = some e →
      e.Is ErrMissingRequiredFields = true ∧
      e = errorfFields ErrMissingRequiredFields k.missingFields ∧
      e.Error = "missing required fields: [" ++ " ".intercalate k.missingFields ++ "]" ∧
      ("name" ∈ k.missingFields ↔ k.Name = "") ∧
      "spec.api.domain" ∉ k.missingFields ∧
      ("spec.api.group" ∈ k.missingFields ↔ k.Spec.API.Group = "") ∧
      ("spec.api.version" ∈ k.missingFields ↔ k.Spec.API.Version = "") ∧
      ("spec.api.kind" ∈ k.missingFields ↔ k.Spec.API.Kind = "") ∧
      k.missingFields.Nodup ∧
      k.missingFields.Sublist
        ["name", "spec.api.group", "spec.api.version", "spec.api.kind"]) := by
  constructor
  · intro e he
    have hsub := collection_missingFields_sublist c
    have hnd : c.missingFields.Nodup := List.Nodup.sublist hsub (by decide)
    have hmem : ("name" ∈ c.missingFields ↔ c.Name = "") ∧
        ("spec.api.domain" ∈ c.missingFields ↔ c.Spec.API.Domain = "") ∧
        ("spec.api.group" ∈ c.missingFields ↔ c.Spec.API.Group = "") ∧
        ("spec.api.version" ∈ c.missingFields ↔ c.Spec.API.Version = "") ∧
        ("spec.api.kind" ∈ c.missingFields ↔ c.Spec.API.Kind = "") := by
      rw [collection_missingFields_eq]
      by_cases h1 : c.Name = "" <;> by_cases h2 : c.Spec.API.Domain = "" <;>
        by_cases h3 : c.Spec.API.Group = "" <;> by_cases h4 : c.Spec.API.Version = "" <;>
        by_cases h5 : c.Spec.API.Kind = "" <;> simp [h1, h2, h3, h4, h5, List.filter]
    have hval : e = errorfFields ErrMissingRequiredFields c.missingFields := by
      unfold WorkloadCollection.Validate at he
      by_cases hlen : c.missingFields.length > 0
      · simp [hlen] at he
        exact he.symm
      · simp [hlen] at he
    refine ⟨?_, hval, ?_, hmem.1, hmem.2.1, hmem.2.2.1, hmem.2.2.2.1, hmem.2.2.2.2, hnd, hsub⟩
    · rw [hval]
      exact errorfFields_Is _ _
    · rw [hval]
      simp only [errorfFields, GoError.Error, ErrMissingRequiredFields, fmtStringSlice,
        String.append_assoc]
      exact (String.append_assoc "missing required fields: " "[" _).symm
  · intro e he
    have hsub := component_missingFields_sublist k
    have hnd : k.missingFields.Nodup := List.Nodup.sublist hsub (by decide)
    have hdom : "spec.api.domain" ∉ k.missingFields := fun hin =>
      absurd (hsub.subset hin) (by decide)
    have hmem : ("name" ∈ k.missingFields ↔ k.Name = "") ∧
        ("spec.api.group" ∈ k.missingFields ↔ k.Spec.API.Group = "") ∧
        ("spec.api.version" ∈ k.missingFields ↔ k.Spec.API.Version = "") ∧
        ("spec.api.kind" ∈ k.missingFields ↔ k.Spec.API.Kind = "") := by
      rw [component_missingFields_eq]
      by_cases h1 : k.Name = "" <;>
        by_cases h3 : k.Spec.API.Group = "" <;> by_cases h4 : k.Spec.API.Version = "" <;>
        by_cases h5 : k.Spec.API.Kind = "" <;> simp [h1, h3, h4, h5, List.filter]
    have hval : e = errorfFields ErrMissingRequiredFields k.missingFields := by
      unfold ComponentWorkload.Validate at he
      by_cases hlen : k.missingFields.length > 0
      · simp [hlen] at he
        exact he.symm
      · simp [hlen] at he
    refine ⟨?_, hval, ?_, hmem.1, hdom, hmem.2.1, hmem.2.2.1, hmem.2.2.2, hnd, hsub⟩
    · rw [hval]
      exact errorfFields_Is _ _
    · rw [hval]
      simp only [errorfFields, GoError.Error, ErrMissingRequiredFields, fmtStringSlice,
        String.append_assoc]
      exact (String.append_assoc "missing required fields: " "[" _).symm

/-- Witness of C3: a collection with no name and no domain and a component with
no kind both fail validation, with the errors that the theorem describes. -/
theorem validate_error_reports_missing_fields_witness :
    (WorkloadCollection.Validate
        { Name := "", Spec := { API := { Group := "apps", Version := "v1", Kind := "Widget" } } } =
      some (.wrap "missing required fields: [name spec.api.domain]" ErrMissingRequiredFields)) ∧
    (ComponentWorkload.Validate
        { Name := "web", Spec := { API := { Group := "apps", Version := "v1" } } } =
      some (.wrap "missing required fields: [spec.api.kind]" ErrMissingRequiredFields)) ∧
    (GoError.wrap "missing required fields: [name spec.api.domain]"
      ErrMissingRequiredFields).Is ErrMissingRequiredFields = true ∧
    (GoError.wrap "missing required fields: [spec.api.kind]"
      ErrMissingRequiredFields).Is ErrMissingRequiredFields = true :=
  ⟨by decide, by decide,
    ((validate_error_reports_missing_fields
      { Name := "", Spec := { API := { Group := "apps", Version := "v1", Kind := "Widget" } } }
      { Name := "web", Spec := { API := { Group := "apps", Version := "v1" } } }).1
      _ (by decide)).1,
    ((validate_error_reports_missing_fields
      { Name := "", Spec := { API := { Group := "apps", Version := "v1", Kind := "Widget" } } }
      { Name := "web", Spec := { API := { Group := "apps", Version := "v1" } } }).2
      _ (by decide)).1⟩

/-! ### The kind registry -/

/-- The result of `UnmarshalYAML`, case by case on the value of the node. -/
theorem unmarshalYAML_cases (wk : WorkloadKind) (s : String) :
    wk.UnmarshalYAML ⟨s⟩ =
      if s = "StandaloneWorkload" then (WorkloadKindStandalone, none)
      else if s = "WorkloadCollection" then (WorkloadKindCollection, none)
      else if s = "ComponentWorkload" then (WorkloadKindComponent, none)
      else (wk, some ErrInvalidKind) := by
  unfold WorkloadKind.UnmarshalYAML
  rw [workloadKindsMap_lookup]
  by_cases h1 : s = "StandaloneWorkload"
  · simp [h1]
  · by_cases h2 : s = "WorkloadCollection"
    · simp [h2]
    · by_cases h3 : s = "ComponentWorkload"
      · simp [h3]
      · simp [h1, h2, h3]

/-- The result of `UnmarshalJSON`, case by case on the data. -/
theorem unmarshalJSON_cases (wk : WorkloadKind) (s : String) :
    wk.UnmarshalJSON s =
      if s = "StandaloneWorkload" then (WorkloadKindStandalone, none)
      else if s = "WorkloadCollection" then (WorkloadKindCollection, none)
      else if s = "ComponentWorkload" then (WorkloadKindComponent, none)
      else (wk, some ErrInvalidKind) := by
  unfold WorkloadKind.UnmarshalJSON
  rw [workloadKindsMap_lookup]
  by_cases h1 : s = "StandaloneWorkload"
  · simp [h1]
  · by_cases h2 : s = "WorkloadCollection"
    · simp [h2]
    · by_cases h3 : s = "ComponentWorkload"
      · simp [h3]
      · simp [h1, h2, h3]

/-- The text of the standalone kind. -/
theorem String_standalone : WorkloadKindStandalone.String = "StandaloneWorkload" := by decide

/-- The text of the collection kind. -/
theorem String_collection : WorkloadKindCollection.String = "WorkloadCollection" := by decide

/-- The text of the component kind. -/
theorem String_component : WorkloadKindComponent.String = "ComponentWorkload" := by decide

/-- The text of the unknown kind. -/
theorem String_unknown : WorkloadKindUnknown.String = "Unknown Workload Type" := by decide

/-- C4: for each named kind `k`, `UnmarshalYAML` on a node whose value is
`k.String()` returns nil and sets the receiver to `k`, whatever the receiver
held before. -/
theorem unmarshalYAML_of_String (wk k : WorkloadKind)
    (hk : k = WorkloadKindStandalone ∨ k = WorkloadKindCollection ∨
      k = WorkloadKindComponent) :
    wk.UnmarshalYAML ⟨k.String⟩ = (k, none) := by
  rcases hk with h | h | h <;> subst h <;> rw [unmarshalYAML_cases] <;>
    simp [String_standalone, String_collection, String_component]

/-- Witness of C4: decoding the text of the collection kind into a receiver
that held a value outside the enumeration. -/
theorem unmarshalYAML_of_String_witness :
    (WorkloadKind.mk 7).UnmarshalYAML ⟨WorkloadKindCollection.String⟩ =
      (WorkloadKindCollection, none) :=
  unmarshalYAML_of_String ⟨7⟩ WorkloadKindCollection (Or.inr (Or.inl rfl))

/-- C5: `UnmarshalYAML` on a node with value `s`, and `UnmarshalJSON` on the
bytes of `s`, return `ErrInvalidKind` exactly when `s` is none of the three
tags, and nil exactly when it is one of them; a tag in another case or with a
blank around it is rejected. -/
theorem unmarshal_invalid_kind_iff (wk : WorkloadKind) (s : String) :
    ((wk.UnmarshalYAML ⟨s⟩).2 = some ErrInvalidKind ↔
      ¬ (s = "StandaloneWorkload" ∨ s = "WorkloadCollection" ∨ s = "ComponentWorkload")) ∧
    ((wk.UnmarshalJSON s).2 = some ErrInvalidKind ↔
      ¬ (s = "StandaloneWorkload" ∨ s = "WorkloadCollection" ∨ s = "ComponentWorkload")) ∧
    ((wk.UnmarshalYAML ⟨s⟩).2 = none ↔
      (s = "StandaloneWorkload" ∨ s = "WorkloadCollection" ∨ s = "ComponentWorkload")) ∧
    ((wk.UnmarshalJSON s).2 = none ↔
      (s = "StandaloneWorkload" ∨ s = "WorkloadCollection" ∨ s = "ComponentWorkload")) ∧
    (wk.UnmarshalYAML ⟨"standaloneworkload"⟩).2 = some ErrInvalidKind ∧
    (wk.UnmarshalYAML ⟨" StandaloneWorkload"⟩).2 = some ErrInvalidKind ∧
    (wk.UnmarshalYAML ⟨"ComponentWorkload "⟩).2 = some ErrInvalidKind := by
  refine ⟨?_, ?_, ?_, ?_, ?_, ?_, ?_⟩
  · rw [unmarshalYAML_cases]
    by_cases h1 : s = "StandaloneWorkload" <;> by_cases h2 : s = "WorkloadCollection" <;>
      by_cases h3 : s = "ComponentWorkload" <;> simp [h1, h2, h3]
  · rw [unmarshalJSON_cases]
    by_cases h1 : s = "StandaloneWorkload" <;> by_cases h2 : s = "WorkloadCollection" <;>
      by_cases h3 : s = "ComponentWorkload" <;> simp [h1, h2, h3]
  · rw [unmarshalYAML_cases]
    by_cases h1 : s = "StandaloneWorkload" <;> by_cases h2 : s = "WorkloadCollection" <;>
      by_cases h3 : s = "ComponentWorkload" <;> simp [h1, h2, h3]
  · rw [unmarshalJSON_cases]
    by_cases h1 : s = "StandaloneWorkload" <;> by_cases h2 : s = "WorkloadCollection" <;>
      by_cases h3 : s = "ComponentWorkload" <;> simp [h1, h2, h3]
  · rw [unmarshalYAML_cases]; simp
  · rw [unmarshalYAML_cases]; simp
  · rw [unmarshalYAML_cases]; simp

/-- C6: when `UnmarshalYAML` accepts `s`, the decoded kind prints back as `s`;
`String` is injective on the three named kinds; and a string is the text of a
named kind exactly when `UnmarshalYAML` accepts it. -/
theorem String_inverse_of_unmarshalYAML (wk : WorkloadKind) (s : String) :
    ((wk.UnmarshalYAML ⟨s⟩).2 = none → (wk.UnmarshalYAML ⟨s⟩).1.String = s) ∧
    (∀ k1 k2 : WorkloadKind,
      k1 ∈ [WorkloadKindStandalone, WorkloadKindCollection, WorkloadKindComponent] →
      k2 ∈ [WorkloadKindStandalone, WorkloadKindCollection, WorkloadKindComponent] →
      k1.String = k2.String → k1 = k2) ∧
    ((∃ k ∈ [WorkloadKindStandalone, WorkloadKindCollection, WorkloadKindComponent],
        k.String = s) ↔
      (wk.UnmarshalYAML ⟨s⟩).2 = none) := by
  refine ⟨?_, ?_, ?_⟩
  · rw [unmarshalYAML_cases]
    by_cases h1 : s = "StandaloneWorkload"
    · subst h1; intro _; simp [String_standalone]
    · by_cases h2 : s = "WorkloadCollection"
      · subst h2; intro _; simp [String_collection]
      · by_cases h3 : s = "ComponentWorkload"
        · subst h3; intro _; simp [String_component]
        · simp [h1, h2, h3]
  · intro k1 k2 hk1 hk2
    simp only [List.mem_cons, List.mem_singleton, List.mem_nil_iff, or_false] at hk1 hk2
    rcases hk1 with h | h | h <;> rcases hk2 with g | g | g <;> subst h <;> subst g <;> decide
  · rw [unmarshalYAML_cases]
    constructor
    · rintro ⟨k, hk, hs⟩
      simp only [List.mem_cons, List.mem_singleton, List.mem_nil_iff, or_false] at hk
      rcases hk with h | h | h <;> subst h <;> subst hs <;>
        simp [String_standalone, String_collection, String_component]
    · intro h
      by_cases h1 : s = "StandaloneWorkload"
      · exact ⟨WorkloadKindStandalone, by decide, by subst h1; decide⟩
      · by_cases h2 : s = "WorkloadCollection"
        · exact ⟨WorkloadKindCollection, by decide, by subst h2; decide⟩
        · by_cases h3 : s = "ComponentWorkload"
          · exact ⟨WorkloadKindComponent, by decide, by subst h3; decide⟩
          · simp [h1, h2, h3] at h

/-- Witness of C6: the tag of the component kind is accepted and the decoded
kind prints back as that tag. -/
theorem String_inverse_of_unmarshalYAML_witness :
    (WorkloadKindUnknown.UnmarshalYAML ⟨"ComponentWorkload"⟩).2 = none ∧
    (WorkloadKindUnknown.UnmarshalYAML ⟨"ComponentWorkload"⟩).1.String = "ComponentWorkload" :=
  ⟨by decide,
    (String_inverse_of_unmarshalYAML WorkloadKindUnknown "ComponentWorkload").1 (by decide)⟩

/-- C7: a decode that returns nil leaves the receiver at one of Standalone,
Collection, Component, for `UnmarshalYAML` and for `UnmarshalJSON`; the label
of the Unknown kind is `Unknown Workload Type`, and decoding that label is
rejected with `ErrInvalidKind`. -/
theorem unmarshal_never_unknown (wk : WorkloadKind) (s : String) :
    ((wk.UnmarshalYAML ⟨s⟩).2 = none →
      (wk.UnmarshalYAML ⟨s⟩).1 = WorkloadKindStandalone ∨
      (wk.UnmarshalYAML ⟨s⟩).1 = WorkloadKindCollection ∨
      (wk.UnmarshalYAML ⟨s⟩).1 = WorkloadKindComponent) ∧
    ((wk.UnmarshalJSON s).2 = none →
      (wk.UnmarshalJSON s).1 = WorkloadKindStandalone ∨
      (wk.UnmarshalJSON s).1 = WorkloadKindCollection ∨
      (wk.UnmarshalJSON s).1 = WorkloadKindComponent) ∧
    ((wk.UnmarshalYAML ⟨s⟩).2 = none → (wk.UnmarshalYAML ⟨s⟩).1 ≠ WorkloadKindUnknown) ∧
    ((wk.UnmarshalJSON s).2 = none → (wk.UnmarshalJSON s).1 ≠ WorkloadKindUnknown) ∧
    WorkloadKindUnknown.String = "Unknown Workload Type" ∧
    (wk.UnmarshalYAML ⟨WorkloadKindUnknown.String⟩).2 = some ErrInvalidKind ∧
    (wk.UnmarshalJSON WorkloadKindUnknown.String).2 = some ErrInvalidKind := by
  have hy := unmarshalYAML_cases wk s
  have hj := unmarshalJSON_cases wk s
  refine ⟨?_, ?_, ?_, ?_, by decide, ?_, ?_⟩
  · rw [hy]
    by_cases h1 : s = "StandaloneWorkload" <;> by_cases h2 : s = "WorkloadCollection" <;>
      by_cases h3 : s = "ComponentWorkload" <;> simp [h1, h2, h3]
  · rw [hj]
    by_cases h1 : s = "StandaloneWorkload" <;> by_cases h2 : s = "WorkloadCollection" <;>
      by_cases h3 : s = "ComponentWorkload" <;> simp [h1, h2, h3]
  · rw [hy]
    by_cases h1 : s = "StandaloneWorkload" <;> by_cases h2 : s = "WorkloadCollection" <;>
      by_cases h3 : s = "ComponentWorkload" <;> simp [h1, h2, h3] <;> decide
  · rw [hj]
    by_cases h1 : s = "StandaloneWorkload" <;> by_cases h2 : s = "WorkloadCollection" <;>
      by_cases h3 : s = "ComponentWorkload" <;> simp [h1, h2, h3] <;> decide
  · rw [unmarshalYAML_cases]; simp [String_unknown]
  · rw [unmarshalJSON_cases]; simp [String_unknown]

/-- Witness of C7: the tag of the standalone kind decodes, by YAML and by
JSON, to a kind that is not Unknown. -/
theorem unmarshal_never_unknown_witness :
    (WorkloadKindUnknown.UnmarshalYAML ⟨"StandaloneWorkload"⟩).1 ≠ WorkloadKindUnknown ∧
    (WorkloadKindUnknown.UnmarshalJSON "StandaloneWorkload").1 ≠ WorkloadKindUnknown :=
  ⟨(unmarshal_never_unknown WorkloadKindUnknown "StandaloneWorkload").2.2.1 (by decide),
    (unmarshal_never_unknown WorkloadKindUnknown "StandaloneWorkload").2.2.2.1 (by decide)⟩

/-! ### The resource descriptor -/

/-- C8: `GetComponentResource` of a collection and of a component returns the
descriptor with the GVK made of the argument `domain` and the API group,
version and kind of the workload, the path `repo/apis/group/version`,
`Namespaced` the negation of `clusterScoped`, CRD version `v1`, `Controller`
true and the regular plural of the kind; with a plural function that maps
`Widget` to `widgets`, kind `Widget`, group `apps`, version `v1` and the
arguments `example.com`, `repo/mod`, `true` give a descriptor that is not
namespaced, with plural `widgets` and path `repo/mod/apis/apps/v1`. -/
theorem getComponentResource_descriptor (RegularPlural : String → String)
    (c : WorkloadCollection) (k : ComponentWorkload) (domain repo : String)
    (clusterScoped : Bool) :
    c.GetComponentResource RegularPlural domain repo clusterScoped =
      { GVK := {
          Domain := domain,
          Group := c.Spec.API.Group,
          Version := c.Spec.API.Version,
          Kind := c.Spec.API.Kind },
        Plural := RegularPlural c.Spec.API.Kind,
        Path := repo ++ "/apis/" ++ c.Spec.API.Group ++ "/" ++ c.Spec.API.Version,
        API := some { CRDVersion := "v1", Namespaced := !clusterScoped },
        Controller := true } ∧
    k.GetComponentResource RegularPlural domain repo clusterScoped =
      { GVK := {
          Domain := domain,
          Group := k.Spec.API.Group,
          Version := k.Spec.API.Version,
          Kind := k.Spec.API.Kind },
        Plural := RegularPlural k.Spec.API.Kind,
        Path := repo ++ "/apis/" ++ k.Spec.API.Group ++ "/" ++ k.Spec.API.Version,
        API := some { CRDVersion := "v1", Namespaced := !clusterScoped },
        Controller := true } ∧
    (RegularPlural "Widget" = "widgets" →
      c.Spec.API.Kind = "Widget" → c.Spec.API.Group = "apps" → c.Spec.API.Version = "v1" →
      c.GetComponentResource RegularPlural "example.com" "repo/mod" true =
        { GVK := { Domain := "example.com", Group := "apps", Version := "v1", Kind := "Widget" },
          Plural := "widgets",
          Path := "repo/mod/apis/apps/v1",
          API := some { CRDVersion := "v1", Namespaced := false },
          Controller := true }) ∧
    (RegularPlural "Widget" = "widgets" →
      k.Spec.API.Kind = "Widget" → k.Spec.API.Group = "apps" → k.Spec.API.Version = "v1" →
      k.GetComponentResource RegularPlural "example.com" "repo/mod" true =
        { GVK := { Domain := "example.com", Group := "apps", Version := "v1", Kind := "Widget" },
          Plural := "widgets",
          Path := "repo/mod/apis/apps/v1",
          API := some { CRDVersion := "v1", Namespaced := false },
          Controller := true }) := by
  refine ⟨?_, ?_, ?_, ?_⟩
  · cases clusterScoped <;> rfl
  · cases clusterScoped <;> rfl
  · intro hp hk hg hv
    simp only [WorkloadCollection.GetComponentResource, sprintfAPIPath, hk, hg, hv, hp]
    decide
  · intro hp hk hg hv
    simp only [ComponentWorkload.GetComponentResource, sprintfAPIPath, hk, hg, hv, hp]
    decide

/-- Witness of C8: the widget example, for a collection and for a component,
with a plural function that lower-cases the kind and appends an `s`. -/
theorem getComponentResource_descriptor_witness :
    WorkloadCollection.GetComponentResource (fun kind => lowerChars kind ++ "s")
        { Name := "widgets", Spec := { API := { Kind := "Widget", Group := "apps", Version := "v1" } } }
        "example.com" "repo/mod" true =
      { GVK := { Domain := "example.com", Group := "apps", Version := "v1", Kind := "Widget" },
        Plural := "widgets",
        Path := "repo/mod/apis/apps/v1",
        API := some { CRDVersion := "v1", Namespaced := false },
        Controller := true } ∧
    ComponentWorkload.GetComponentResource (fun kind => lowerChars kind ++ "s")
        { Name := "widget", Spec := { API := { Kind := "Widget", Group := "apps", Version := "v1" } } }
        "example.com" "repo/mod" true =
      { GVK := { Domain := "example.com", Group := "apps", Version := "v1", Kind := "Widget" },
        Plural := "widgets",
        Path := "repo/mod/apis/apps/v1",
        API := some { CRDVersion := "v1", Namespaced := false },
        Controller := true } :=
  ⟨(getComponentResource_descriptor (fun kind => lowerChars kind ++ "s")
      { Name := "widgets", Spec := { API := { Kind := "Widget", Group := "apps", Version := "v1" } } }
      { Name := "widget", Spec := { API := { Kind := "Widget", Group := "apps", Version := "v1" } } }
      "example.com" "repo/mod" true).2.2.1 (by decide) rfl rfl rfl,
    (getComponentResource_descriptor (fun kind => lowerChars kind ++ "s")
      { Name := "widgets", Spec := { API := { Kind := "Widget", Group := "apps", Version := "v1" } } }
      { Name := "widget", Spec := { API := { Kind := "Widget", Group := "apps", Version := "v1" } } }
      "example.com" "repo/mod" true).2.2.2 (by decide) rfl rfl rfl⟩

/-! ### Names and companion commands -/

/-- Setting the common values of a command twice, for the same workload and
role, gives what setting them once gives. -/
theorem setCommonValues_idem (u : Naming) (cli : CliCommand)
    (workload : WorkloadAPIBuilder) (isSubcommand : Bool) :
    (cli.setCommonValues u workload isSubcommand).setCommonValues u workload isSubcommand =
      cli.setCommonValues u workload isSubcommand := by
  unfold CliCommand.setCommonValues CliCommand.hasName CliCommand.hasDescription
  by_cases h1 : cli.Name = "" <;> by_cases h2 : cli.Description = "" <;>
    cases isSubcommand <;> cases hw : workload.IsCollection <;> simp [h1, h2, hw]

/-- A command that has a name keeps it when its common values are set. -/
theorem setCommonValues_hasName (u : Naming) (cli : CliCommand)
    (workload : WorkloadAPIBuilder) (isSubcommand : Bool) (h : cli.hasName = true) :
    (cli.setCommonValues u workload isSubcommand).hasName = true := by
  unfold CliCommand.setCommonValues
  simp only [h, if_true]
  exact h

/-- C9: `SetNames` is idempotent on collections and on components: calling it
twice gives the object that calling it once gives. -/
theorem setNames_idempotent (u : Naming) (c : WorkloadCollection)
    (k : ComponentWorkload) :
    (c.SetNames u).SetNames u = c.SetNames u ∧
    (k.SetNames u).SetNames u = k.SetNames u := by
  constructor
  · by_cases h : c.Spec.CompanionCliRootcmd.hasName = true
    · have h2 := setCommonValues_hasName u c.Spec.CompanionCliRootcmd
        (WorkloadCollection.asAPIBuilder { c with PackageName := u.ToPackageName c.Name })
        false h
      have e1 := setCommonValues_idem u c.Spec.CompanionCliRootcmd
        (WorkloadCollection.asAPIBuilder { c with PackageName := u.ToPackageName c.Name })
        false
      have e2 := setCommonValues_idem u c.Spec.CompanionCliSubcmd
        (WorkloadCollection.asAPIBuilder { c with PackageName := u.ToPackageName c.Name })
        true
      simp only [WorkloadCollection.SetNames, WorkloadCollection.HasRootCmdName, h, if_true]
      simp only [WorkloadCollection.asAPIBuilder, WorkloadCollection.GetName,
        WorkloadCollection.GetPackageName, WorkloadCollection.GetAPIGroup,
        WorkloadCollection.GetAPIVersion, WorkloadCollection.GetAPIKind,
        WorkloadCollection.IsClusterScoped, WorkloadCollection.IsStandalone,
        WorkloadCollection.IsComponent, WorkloadCollection.IsCollection] at h2 e1 e2 ⊢
      simp only [h2, if_true, e1, e2]
    · simp [WorkloadCollection.SetNames, WorkloadCollection.HasRootCmdName, h]
  · have e2 := setCommonValues_idem u k.Spec.CompanionCliSubcmd
      (ComponentWorkload.asAPIBuilder { k with PackageName := u.ToPackageName k.Name })
      true
    simp only [ComponentWorkload.SetNames]
    simp only [ComponentWorkload.asAPIBuilder, ComponentWorkload.GetName,
      ComponentWorkload.GetPackageName, ComponentWorkload.GetAPIGroup,
      ComponentWorkload.GetAPIVersion, ComponentWorkload.GetAPIKind,
      ComponentWorkload.IsClusterScoped, ComponentWorkload.IsStandalone,
      ComponentWorkload.IsComponent, ComponentWorkload.IsCollection] at e2 ⊢
    simp only [e2]

/-- C10: on a collection whose root command name is empty, `SetNames` sets
`PackageName` and changes nothing else: both companion commands, and every
other field, are as they were; when both commands were empty on input they are
empty afterwards. -/
theorem collection_setNames_without_root_name (u : Naming) (c : WorkloadCollection)
    (h : c.Spec.CompanionCliRootcmd.Name = "") :
    c.SetNames u = { c with PackageName := u.ToPackageName c.Name } ∧
    (c.SetNames u).Spec = c.Spec ∧
    (c.SetNames u).Spec.CompanionCliRootcmd = c.Spec.CompanionCliRootcmd ∧
    (c.SetNames u).Spec.CompanionCliSubcmd = c.Spec.CompanionCliSubcmd ∧
    (c.SetNames u).Name = c.Name ∧
    (c.SetNames u).Kind = c.Kind ∧
    (c.SetNames u).PackageName = u.ToPackageName c.Name ∧
    (c.Spec.CompanionCliRootcmd = {} → c.Spec.CompanionCliSubcmd = {} →
      (c.SetNames u).Spec.CompanionCliRootcmd = {} ∧
      (c.SetNames u).Spec.CompanionCliSubcmd = {}) := by
  have e : c.SetNames u = { c with PackageName := u.ToPackageName c.Name } := by
    simp [WorkloadCollection.SetNames, WorkloadCollection.HasRootCmdName,
      CliCommand.hasName, h]
  rw [e]
  exact ⟨rfl, rfl, rfl, rfl, rfl, rfl, rfl, fun h1 h2 => ⟨h1, h2⟩⟩

/-- Witness of C10: the collection of the test case without a root command. -/
theorem collection_setNames_without_root_name_witness :
    WorkloadCollection.SetNames exampleNaming
        { Name := "shared-name", Kind := WorkloadKindCollection } =
      { Name := "shared-name", PackageName := "sharedname", Kind := WorkloadKindCollection,
        Spec := { CompanionCliRootcmd := {}, CompanionCliSubcmd := {} } } :=
  ((collection_setNames_without_root_name exampleNaming
    { Name := "shared-name", Kind := WorkloadKindCollection } rfl).1).trans (by decide)

/-! ### The model of naming against the tests of the package -/

/-- With `exampleNaming`, `SetNames` gives what the case `workload collection
with root command missing description` of `Test_CollectionSetNames` expects. -/
theorem collection_setNames_missing_description_case :
    WorkloadCollection.SetNames exampleNaming
        { Name := "shared-name", Kind := WorkloadKindCollection,
          Spec := {
            API := { Kind := "WorkloadCollectionTest" },
            CompanionCliRootcmd := { Name := "hasrootcommand" } } } =
      { Name := "shared-name", PackageName := "sharedname", Kind := WorkloadKindCollection,
        Spec := {
          API := { Kind := "WorkloadCollectionTest" },
          CompanionCliRootcmd := {
            Name := "hasrootcommand",
            Description := "Manage workloadcollectiontest collection and components",
            VarName := "Hasrootcommand",
            FileName := "hasrootcommand",
            IsRootcommand := true },
          CompanionCliSubcmd := {
            Name := "collection",
            Description := "Manage workloadcollectiontest workload",
            VarName := "Collection",
            FileName := "collection",
            IsSubcommand := true } } } := by
  decide

/-- With `exampleNaming`, `SetNames` gives what the case `workload collection
with full subcommand` of `Test_CollectionSetNames` expects. -/
theorem collection_setNames_full_subcommand_case :
    WorkloadCollection.SetNames exampleNaming
        { Name := "shared-name", Kind := WorkloadKindCollection,
          Spec := {
            API := { Kind := "WorkloadCollectionTest" },
            CompanionCliRootcmd := { Name := "hasrootcommand" },
            CompanionCliSubcmd := {
              Name := "collection",
              Description := "Manage workloadcollectiontest workload custom",
              VarName := "Collection",
              FileName := "collection" } } } =
      { Name := "shared-name", PackageName := "sharedname", Kind := WorkloadKindCollection,
        Spec := {
          API := { Kind := "WorkloadCollectionTest" },
          CompanionCliRootcmd := {
            Name := "hasrootcommand",
            Description := "Manage workloadcollectiontest collection and components",
            VarName := "Hasrootcommand",
            FileName := "hasrootcommand",
            IsRootcommand := true },
          CompanionCliSubcmd := {
            Name := "collection",
            Description := "Manage workloadcollectiontest workload custom",
            VarName := "Collection",
            FileName := "collection",
            IsSubcommand := true } } } := by
  decide

/-- With `exampleNaming`, `SetNames` gives what the case `component workload
missing subcommand` of `Test_ComponentSetNames` expects. -/
theorem component_setNames_missing_subcommand_case :
    ComponentWorkload.SetNames exampleNaming
        { Name := "shared-name", Kind := WorkloadKindComponent,
          Spec := { API := { Kind := "ComponentWorkloadTest" }, CompanionCliSubcmd := {} } } =
      { Name := "shared-name", PackageName := "sharedname", Kind := WorkloadKindComponent,
        Spec := {
          API := { Kind := "ComponentWorkloadTest" },
          CompanionCliSubcmd := {
            Name := "componentworkloadtest",
            Description := "Manage componentworkloadtest workload",
            VarName := "Componentworkloadtest",
            FileName := "componentworkloadtest",
            IsSubcommand := true } } } := by
  decide

/-- With `exampleNaming`, `SetNames` gives what the case `component workload
with subcommand` of `Test_ComponentSetNames` expects. -/
theorem component_setNames_with_subcommand_case :
    ComponentWorkload.SetNames exampleNaming
        { Name := "shared-name", Kind := WorkloadKindComponent,
          Spec := {
            API := { Kind := "ComponentWorkloadTest" },
            CompanionCliSubcmd := {
              Name := "componentworkloadtest",
              Description := "Manage componentworkloadtest workload custom",
              VarName := "Componentworkloadtest",
              FileName := "componentworkloadtest" } } } =
      { Name := "shared-name", PackageName := "sharedname", Kind := WorkloadKindComponent,
        Spec := {
          API := { Kind := "ComponentWorkloadTest" },
          CompanionCliSubcmd := {
            Name := "componentworkloadtest",
            Description := "Manage componentworkloadtest workload custom",
            VarName := "Componentworkloadtest",
            FileName := "componentworkloadtest",
            IsSubcommand := true } } } := by
  decide

/-! ### Defaults of the companion commands -/

/-- C11: after `SetNames` on a collection whose root command has a name, a root
description that was empty is `Manage <k> collection and components`, a
subcommand name that was empty is `collection` and a subcommand description
that was empty is `Manage <k> workload`, with `<k>` the lower-cased API kind;
for the kind `WorkloadCollectionTest`, lower-cased to `workloadcollectiontest`,
these are the two texts of the tests. -/
theorem collection_setNames_defaults (u : Naming) (c : WorkloadCollection)
    (h : c.Spec.CompanionCliRootcmd.Name ≠ "") :
    (c.Spec.CompanionCliRootcmd.Description = "" →
      (c.SetNames u).Spec.CompanionCliRootcmd.Description =
        "Manage " ++ u.ToLower c.Spec.API.Kind ++ " collection and components") ∧
    (c.Spec.CompanionCliSubcmd.Name = "" →
      (c.SetNames u).Spec.CompanionCliSubcmd.Name = "collection") ∧
    (c.Spec.CompanionCliSubcmd.Description = "" →
      (c.SetNames u).Spec.CompanionCliSubcmd.Description =
        "Manage " ++ u.ToLower c.Spec.API.Kind ++ " workload") ∧
    (c.Spec.API.Kind = "WorkloadCollectionTest" →
      u.ToLower "WorkloadCollectionTest" = "workloadcollectiontest" →
      (c.Spec.CompanionCliRootcmd.Description = "" →
        (c.SetNames u).Spec.CompanionCliRootcmd.Description =
          "Manage workloadcollectiontest collection and components") ∧
      (c.Spec.CompanionCliSubcmd.Description = "" →
        (c.SetNames u).Spec.CompanionCliSubcmd.Description =
          "Manage workloadcollectiontest workload")) := by
  have hr : (c.Spec.CompanionCliRootcmd.Description = "" →
      (c.SetNames u).Spec.CompanionCliRootcmd.Description =
        "Manage " ++ u.ToLower c.Spec.API.Kind ++ " collection and components") := by
    intro hd
    simp [WorkloadCollection.SetNames, WorkloadCollection.HasRootCmdName, CliCommand.hasName,
      CliCommand.hasDescription, CliCommand.setCommonValues, WorkloadCollection.asAPIBuilder,
      WorkloadCollection.IsCollection, WorkloadCollection.GetAPIKind,
      defaultCollectionRootcommandDescription, h, hd]
  have hs : (c.Spec.CompanionCliSubcmd.Description = "" →
      (c.SetNames u).Spec.CompanionCliSubcmd.Description =
        "Manage " ++ u.ToLower c.Spec.API.Kind ++ " workload") := by
    intro hd
    simp [WorkloadCollection.SetNames, WorkloadCollection.HasRootCmdName, CliCommand.hasName,
      CliCommand.hasDescription, CliCommand.setCommonValues, WorkloadCollection.asAPIBuilder,
      WorkloadCollection.IsCollection, WorkloadCollection.GetAPIKind,
      defaultCollectionSubcommandDescription, h, hd]
  refine ⟨hr, ?_, hs, ?_⟩
  · intro hn
    simp [WorkloadCollection.SetNames, WorkloadCollection.HasRootCmdName, CliCommand.hasName,
      CliCommand.setCommonValues, WorkloadCollection.asAPIBuilder,
      WorkloadCollection.IsCollection, defaultCollectionSubcommandName, h, hn]
  · intro hk hl
    constructor
    · intro hd
      rw [hr hd, hk, hl]
      decide
    · intro hd
      rw [hs hd, hk, hl]
      decide

/-- Witness of C11: the collection of the test case with a root command and no
description. -/
theorem collection_setNames_defaults_witness :
    (WorkloadCollection.SetNames exampleNaming
        { Name := "shared-name", Kind := WorkloadKindCollection,
          Spec := {
            API := { Kind := "WorkloadCollectionTest" },
            CompanionCliRootcmd := { Name := "hasrootcommand" } } }
      ).Spec.CompanionCliSubcmd.Name = "collection" :=
  (collection_setNames_defaults exampleNaming
    { Name := "shared-name", Kind := WorkloadKindCollection,
      Spec := {
        API := { Kind := "WorkloadCollectionTest" },
        CompanionCliRootcmd := { Name := "hasrootcommand" } } }
    (by decide)).2.1 rfl

/-- C12: after `SetNames` on a collection whose root command has a name, the
root command is a root command and not a subcommand and the subcommand is a
subcommand and not a root command; after `SetNames` on a component its
subcommand is a subcommand and not a root command; whatever the flags were. -/
theorem setNames_role_flags (u : Naming) (c : WorkloadCollection) (k : ComponentWorkload)
    (h : c.Spec.CompanionCliRootcmd.Name ≠ "") :
    (c.SetNames u).Spec.CompanionCliRootcmd.IsRootcommand = true ∧
    (c.SetNames u).Spec.CompanionCliRootcmd.IsSubcommand = false ∧
    (c.SetNames u).Spec.CompanionCliSubcmd.IsSubcommand = true ∧
    (c.SetNames u).Spec.CompanionCliSubcmd.IsRootcommand = false ∧
    (k.SetNames u).Spec.CompanionCliSubcmd.IsSubcommand = true ∧
    (k.SetNames u).Spec.CompanionCliSubcmd.IsRootcommand = false := by
  refine ⟨?_, ?_, ?_, ?_, ?_, ?_⟩ <;>
    simp [WorkloadCollection.SetNames, ComponentWorkload.SetNames,
      WorkloadCollection.HasRootCmdName, CliCommand.hasName, CliCommand.setCommonValues, h]

/-- Witness of C12: a collection and a component whose commands carry both role
flags on input. -/
theorem setNames_role_flags_witness :
    (WorkloadCollection.SetNames exampleNaming
        { Name := "shared-name",
          Spec := {
            CompanionCliRootcmd := {
              Name := "hasrootcommand", IsSubcommand := true, IsRootcommand := true },
            CompanionCliSubcmd := { IsSubcommand := true, IsRootcommand := true } } }
      ).Spec.CompanionCliRootcmd.IsSubcommand = false ∧
    (ComponentWorkload.SetNames exampleNaming
        { Name := "shared-name",
          Spec := { CompanionCliSubcmd := { IsSubcommand := true, IsRootcommand := true } } }
      ).Spec.CompanionCliSubcmd.IsRootcommand = false :=
  ⟨(setNames_role_flags exampleNaming
      { Name := "shared-name",
        Spec := {
          CompanionCliRootcmd := {
            Name := "hasrootcommand", IsSubcommand := true, IsRootcommand := true },
          CompanionCliSubcmd := { IsSubcommand := true, IsRootcommand := true } } }
      { Name := "shared-name",
        Spec := { CompanionCliSubcmd := { IsSubcommand := true, IsRootcommand := true } } }
      (by decide)).2.1,
    (setNames_role_flags exampleNaming
      { Name := "shared-name",
        Spec := {
          CompanionCliRootcmd := {
            Name := "hasrootcommand", IsSubcommand := true, IsRootcommand := true },
          CompanionCliSubcmd := { IsSubcommand := true, IsRootcommand := true } } }
      { Name := "shared-name",
        Spec := { CompanionCliSubcmd := { IsSubcommand := true, IsRootcommand := true } } }
      (by decide)).2.2.2.2.2⟩

/-- Counterexample to C13: for the component of the test case `component
workload missing subcommand`, named `shared-name` with API kind
`ComponentWorkloadTest`, the subcommand name after `SetNames` is
`componentworkloadtest` while the package name is `sharedname`, and the
description is not `Manage sharedname workload`; and a description given
without a name is kept. -/
theorem component_subcommand_default_not_packageName :
    (ComponentWorkload.SetNames exampleNaming
        { Name := "shared-name", Kind := WorkloadKindComponent,
          Spec := { API := { Kind := "ComponentWorkloadTest" }, CompanionCliSubcmd := {} } }
      ).Spec.CompanionCliSubcmd.Name = "componentworkloadtest" ∧
    (ComponentWorkload.SetNames exampleNaming
        { Name := "shared-name", Kind := WorkloadKindComponent,
          Spec := { API := { Kind := "ComponentWorkloadTest" }, CompanionCliSubcmd := {} } }
      ).PackageName = "sharedname" ∧
    (ComponentWorkload.SetNames exampleNaming
        { Name := "shared-name", Kind := WorkloadKindComponent,
          Spec := { API := { Kind := "ComponentWorkloadTest" }, CompanionCliSubcmd := {} } }
      ).Spec.CompanionCliSubcmd.Description = "Manage componentworkloadtest workload" ∧
    ¬ ((ComponentWorkload.SetNames exampleNaming
        { Name := "shared-name", Kind := WorkloadKindComponent,
          Spec := { API := { Kind := "ComponentWorkloadTest" }, CompanionCliSubcmd := {} } }
      ).Spec.CompanionCliSubcmd.Name =
      (ComponentWorkload.SetNames exampleNaming
        { Name := "shared-name", Kind := WorkloadKindComponent,
          Spec := { API := { Kind := "ComponentWorkloadTest" }, CompanionCliSubcmd := {} } }
      ).PackageName) ∧
    ¬ ((ComponentWorkload.SetNames exampleNaming
        { Name := "shared-name", Kind := WorkloadKindComponent,
          Spec := { API := { Kind := "ComponentWorkloadTest" }, CompanionCliSubcmd := {} } }
      ).Spec.CompanionCliSubcmd.Description = "Manage sharedname workload") ∧
    (ComponentWorkload.SetNames exampleNaming
        { Name := "shared-name", Kind := WorkloadKindComponent,
          Spec := {
            API := { Kind := "ComponentWorkloadTest" },
            CompanionCliSubcmd := { Description := "Operate the web tier" } } }
      ).Spec.CompanionCliSubcmd.Description = "Operate the web tier" := by
  decide

/-- C13, amended: after `SetNames` on a component whose subcommand name is
empty, the subcommand name is the lower-cased API kind, and a description that
was empty as well is `Manage <k> workload` with `<k>` the lower-cased API
kind. -/
theorem component_subcommand_defaults (u : Naming) (k : ComponentWorkload)
    (h : k.Spec.CompanionCliSubcmd.Name = "") :
    (k.SetNames u).Spec.CompanionCliSubcmd.Name = u.ToLower k.Spec.API.Kind ∧
    (k.Spec.CompanionCliSubcmd.Description = "" →
      (k.SetNames u).Spec.CompanionCliSubcmd.Description =
        "Manage " ++ u.ToLower k.Spec.API.Kind ++ " workload") := by
  constructor
  · simp [ComponentWorkload.SetNames, CliCommand.hasName, CliCommand.setCommonValues,
      ComponentWorkload.asAPIBuilder, ComponentWorkload.IsCollection,
      ComponentWorkload.GetAPIKind, h]
  · intro hd
    simp [ComponentWorkload.SetNames, CliCommand.hasDescription, CliCommand.setCommonValues,
      ComponentWorkload.asAPIBuilder, ComponentWorkload.IsCollection,
      ComponentWorkload.GetAPIKind, defaultDescription, hd]

/-- Witness of C13, amended: a component with API kind `Gateway` and no
subcommand. -/
theorem component_subcommand_defaults_witness :
    (ComponentWorkload.SetNames exampleNaming
        { Name := "edge-gateway", Spec := { API := { Kind := "Gateway" } } }
      ).Spec.CompanionCliSubcmd.Name = exampleNaming.ToLower "Gateway" :=
  (component_subcommand_defaults exampleNaming
    { Name := "edge-gateway", Spec := { API := { Kind := "Gateway" } } } rfl).1

/-- After `SetNames` on a component whose subcommand name is empty, the
subcommand name is the lower-cased API kind and a description that was empty as
well is `Manage <k> workload` with `<k>` the lower-cased API kind; the
subcommand does not depend on the name of the workload; with the kind
`ComponentWorkloadTest` lower-cased to `componentworkloadtest`, that name
turned into the variable name `Componentworkloadtest` and the file name
`componentworkloadtest`, an empty subcommand becomes the subcommand that
`Test_ComponentSetNames` expects. -/
theorem component_subcommand_from_kind (u : Naming) (k : ComponentWorkload)
    (h : k.Spec.CompanionCliSubcmd.Name = "") :
    (k.SetNames u).Spec.CompanionCliSubcmd.Name = u.ToLower k.Spec.API.Kind ∧
    (k.Spec.CompanionCliSubcmd.Description = "" →
      (k.SetNames u).Spec.CompanionCliSubcmd.Description =
        "Manage " ++ u.ToLower k.Spec.API.Kind ++ " workload") ∧
    (∀ name : String,
      (ComponentWorkload.SetNames u { k with Name := name }).Spec.CompanionCliSubcmd =
        (k.SetNames u).Spec.CompanionCliSubcmd) ∧
    (k.Spec.API.Kind = "ComponentWorkloadTest" →
      k.Spec.CompanionCliSubcmd = {} →
      u.ToLower "ComponentWorkloadTest" = "componentworkloadtest" →
      u.ToVarName "componentworkloadtest" = "Componentworkloadtest" →
      u.ToFileName "componentworkloadtest" = "componentworkloadtest" →
      (k.SetNames u).Spec.CompanionCliSubcmd =
        { Name := "componentworkloadtest",
          Description := "Manage componentworkloadtest workload",
          VarName := "Componentworkloadtest",
          FileName := "componentworkloadtest",
          IsSubcommand := true,
          IsRootcommand := false }) := by
  refine ⟨?_, ?_, ?_, ?_⟩
  · simp [ComponentWorkload.SetNames, CliCommand.hasName, CliCommand.setCommonValues,
      ComponentWorkload.asAPIBuilder, ComponentWorkload.IsCollection,
      ComponentWorkload.GetAPIKind, h]
  · intro hd
    simp [ComponentWorkload.SetNames, CliCommand.hasDescription, CliCommand.setCommonValues,
      ComponentWorkload.asAPIBuilder, ComponentWorkload.IsCollection,
      ComponentWorkload.GetAPIKind, defaultDescription, hd]
  · intro name
    rfl
  · intro hk he hl hv hf
    have e1 : (k.SetNames u).Spec.CompanionCliSubcmd =
        { Name := u.ToLower "ComponentWorkloadTest",
          Description := "Manage " ++ u.ToLower "ComponentWorkloadTest" ++ " workload",
          VarName := u.ToVarName (u.ToLower "ComponentWorkloadTest"),
          FileName := u.ToFileName (u.ToLower "ComponentWorkloadTest"),
          IsSubcommand := true,
          IsRootcommand := false } := by
      simp [ComponentWorkload.SetNames, CliCommand.hasName, CliCommand.hasDescription,
        CliCommand.setCommonValues, ComponentWorkload.asAPIBuilder,
        ComponentWorkload.IsCollection, ComponentWorkload.GetAPIKind, defaultDescription,
        he, hk]
    rw [e1, hl, hv, hf]
    rfl

/-- The component of the test case `component workload missing subcommand`,
through `component_subcommand_from_kind`. -/
theorem component_subcommand_from_kind_witness :
    (ComponentWorkload.SetNames exampleNaming
        { Name := "shared-name", Kind := WorkloadKindComponent,
          Spec := { API := { Kind := "ComponentWorkloadTest" }, CompanionCliSubcmd := {} } }
      ).Spec.CompanionCliSubcmd =
      { Name := "componentworkloadtest",
        Description := "Manage componentworkloadtest workload",
        VarName := "Componentworkloadtest",
        FileName := "componentworkloadtest",
        IsSubcommand := true,
        IsRootcommand := false } :=
  (component_subcommand_from_kind exampleNaming
    { Name := "shared-name", Kind := WorkloadKindComponent,
      Spec := { API := { Kind := "ComponentWorkloadTest" }, CompanionCliSubcmd := {} } }
    rfl).2.2.2 rfl rfl (by decide) (by decide) (by decide)

/-! ### The package name -/

/-- Lower-casing of a character: either the character is no letter A to Z and
is kept, or it is one and its code goes up by 32. -/
theorem toLower_cases (x : Char) :
    (x.toLower = x ∧ ¬ (x.toNat ≥ 65 ∧ x.toNat ≤ 90)) ∨
    (x.toNat ≥ 65 ∧ x.toNat ≤ 90 ∧ x.toLower.toNat = x.toNat + 32) := by
  by_cases h : x.toNat ≥ 65 ∧ x.toNat ≤ 90
  · right
    refine ⟨h.1, h.2, ?_⟩
    have hv : (x.toNat + 32).isValidChar := by
      left; omega
    unfold Char.toLower
    simp only [h, and_self, if_true]
    simp only [Char.ofNat, hv, dif_pos]
    rfl
  · left
    refine ⟨?_, h⟩
    unfold Char.toLower
    simp only [h, if_false]

/-- A character is upper-case when its code is between 65 and 90. -/
theorem isUpper_iff_code (x : Char) :
    x.isUpper = true ↔ (x.toNat ≥ 65 ∧ x.toNat ≤ 90) := by
  unfold Char.isUpper Char.toNat
  simp only [ge_iff_le, Bool.and_eq_true, decide_eq_true_eq, UInt32.le_def]
  simp only [BitVec.le_def]
  exact Iff.rfl

/-- A lower-cased character is not upper-case. -/
theorem isUpper_toLower (x : Char) : x.toLower.isUpper = false := by
  rcases toLower_cases x with ⟨h1, h2⟩ | ⟨h1, h2, h3⟩
  · rw [h1, Bool.eq_false_iff]
    intro h
    exact h2 ((isUpper_iff_code x).1 h)
  · rw [Bool.eq_false_iff]
    intro h
    have := (isUpper_iff_code _).1 h
    omega

/-- Lower-casing makes no hyphen. -/
theorem toLower_eq_hyphen (x : Char) (h : x.toLower = '-') : x = '-' := by
  rcases toLower_cases x with ⟨h1, _⟩ | ⟨h1, h2, h3⟩
  · rw [h1] at h; exact h
  · rw [h] at h3
    have : ('-' : Char).toNat = 45 := by decide
    omega

/-- The modelled package name has no hyphen and no upper-case letter. -/
theorem ToPackageName_chars (name : String) :
    '-' ∉ (ToPackageName name).data ∧
    ∀ ch ∈ (ToPackageName name).data, ch.isUpper = false := by
  unfold ToPackageName lowerChars
  constructor
  · intro hin
    simp only [List.mem_map, List.mem_filter] at hin
    obtain ⟨x, ⟨_, hx⟩, hlow⟩ := hin
    have := toLower_eq_hyphen x hlow
    simp [this] at hx
  · intro ch hin
    simp only [List.mem_map] at hin
    obtain ⟨x, _, hlow⟩ := hin
    rw [← hlow]
    exact isUpper_toLower x

/-- C15: after `SetNames` on a collection or a component, `PackageName` is the
package name of `Name`, whatever `PackageName` was before, and `Name` is
unchanged; with the modelled `ToPackageName`, the package name has no hyphen
and no upper-case letter, and the package name of `shared-name` is
`sharedname`. -/
theorem setNames_packageName (u : Naming) (c : WorkloadCollection) (k : ComponentWorkload)
    (previous : String) :
    (c.SetNames u).PackageName = u.ToPackageName c.Name ∧
    (WorkloadCollection.SetNames u { c with PackageName := previous }).PackageName =
      (c.SetNames u).PackageName ∧
    (c.SetNames u).Name = c.Name ∧
    (k.SetNames u).PackageName = u.ToPackageName k.Name ∧
    (ComponentWorkload.SetNames u { k with PackageName := previous }).PackageName =
      (k.SetNames u).PackageName ∧
    (k.SetNames u).Name = k.Name ∧
    (WorkloadCollection.SetNames { u with ToPackageName := ToPackageName } c).PackageName =
      ToPackageName c.Name ∧
    (ComponentWorkload.SetNames { u with ToPackageName := ToPackageName } k).PackageName =
      ToPackageName k.Name ∧
    '-' ∉ (WorkloadCollection.SetNames
      { u with ToPackageName := ToPackageName } c).PackageName.data ∧
    (∀ ch ∈ (WorkloadCollection.SetNames
      { u with ToPackageName := ToPackageName } c).PackageName.data, ch.isUpper = false) ∧
    '-' ∉ (ComponentWorkload.SetNames
      { u with ToPackageName := ToPackageName } k).PackageName.data ∧
    (∀ ch ∈ (ComponentWorkload.SetNames
      { u with ToPackageName := ToPackageName } k).PackageName.data, ch.isUpper = false) ∧
    ToPackageName "shared-name" = "sharedname" := by
  have hc : ∀ (v : Naming) (d : WorkloadCollection),
      (d.SetNames v).PackageName = v.ToPackageName d.Name ∧ (d.SetNames v).Name = d.Name := by
    intro v d
    unfold WorkloadCollection.SetNames
    by_cases h : WorkloadCollection.HasRootCmdName
      { d with PackageName := v.ToPackageName d.Name } = true
    · simp [h]
    · simp [h]
  have hk : ∀ (v : Naming) (d : ComponentWorkload),
      (d.SetNames v).PackageName = v.ToPackageName d.Name ∧ (d.SetNames v).Name = d.Name :=
    fun v d => ⟨rfl, rfl⟩
  refine ⟨(hc u c).1, ?_, (hc u c).2, (hk u k).1, ?_, (hk u k).2, (hc _ c).1, (hk _ k).1,
    ?_, ?_, ?_, ?_, by decide⟩
  · rw [(hc u c).1, (hc u _).1]
  · rw [(hk u k).1, (hk u _).1]
  · rw [(hc _ c).1]
    exact (ToPackageName_chars c.Name).1
  · rw [(hc _ c).1]
    exact (ToPackageName_chars c.Name).2
  · rw [(hk _ k).1]
    exact (ToPackageName_chars k.Name).1
  · rw [(hk _ k).1]
    exact (ToPackageName_chars k.Name).2

/-! ### Names and descriptions that are set -/

/-- C16: `SetNames` keeps every command name and description that is set: on a
collection whose root command has a name, the root name, a non-empty root
description, a non-empty subcommand name and a non-empty subcommand description
are after `SetNames` what they were before; on a component, so are a non-empty
subcommand name and a non-empty subcommand description; a name is kept also
when the description beside it is empty. -/
theorem setNames_keeps_set_names (u : Naming) (c : WorkloadCollection)
    (k : ComponentWorkload) (h : c.Spec.CompanionCliRootcmd.Name ≠ "") :
    (c.SetNames u).Spec.CompanionCliRootcmd.Name = c.Spec.CompanionCliRootcmd.Name ∧
    (c.Spec.CompanionCliRootcmd.Description ≠ "" →
      (c.SetNames u).Spec.CompanionCliRootcmd.Description =
        c.Spec.CompanionCliRootcmd.Description) ∧
    (c.Spec.CompanionCliSubcmd.Name ≠ "" →
      (c.SetNames u).Spec.CompanionCliSubcmd.Name = c.Spec.CompanionCliSubcmd.Name) ∧
    (c.Spec.CompanionCliSubcmd.Description ≠ "" →
      (c.SetNames u).Spec.CompanionCliSubcmd.Description =
        c.Spec.CompanionCliSubcmd.Description) ∧
    (k.Spec.CompanionCliSubcmd.Name ≠ "" →
      (k.SetNames u).Spec.CompanionCliSubcmd.Name = k.Spec.CompanionCliSubcmd.Name) ∧
    (k.Spec.CompanionCliSubcmd.Description ≠ "" →
      (k.SetNames u).Spec.CompanionCliSubcmd.Description =
        k.Spec.CompanionCliSubcmd.Description) ∧
    (k.SetNames u).Spec.CompanionCliRootcmd = k.Spec.CompanionCliRootcmd := by
  refine ⟨?_, ?_, ?_, ?_, ?_, ?_, rfl⟩
  · simp [WorkloadCollection.SetNames, WorkloadCollection.HasRootCmdName, CliCommand.hasName,
      CliCommand.setCommonValues, h]
  · intro hd
    simp [WorkloadCollection.SetNames, WorkloadCollection.HasRootCmdName, CliCommand.hasName,
      CliCommand.hasDescription, CliCommand.setCommonValues, h, hd]
  · intro hn
    simp [WorkloadCollection.SetNames, WorkloadCollection.HasRootCmdName, CliCommand.hasName,
      CliCommand.setCommonValues, h, hn]
  · intro hd
    simp [WorkloadCollection.SetNames, WorkloadCollection.HasRootCmdName, CliCommand.hasName,
      CliCommand.hasDescription, CliCommand.setCommonValues, h, hd]
  · intro hn
    simp [ComponentWorkload.SetNames, CliCommand.hasName, CliCommand.setCommonValues, hn]
  · intro hd
    simp [ComponentWorkload.SetNames, CliCommand.hasDescription, CliCommand.setCommonValues,
      hd]

/-- Witness of C16: the collection of the test case `workload collection with
root command` keeps its root description, and the component of the test case
`component workload with subcommand` keeps its subcommand description. -/
theorem setNames_keeps_set_names_witness :
    (WorkloadCollection.SetNames exampleNaming
        { Name := "shared-name", Kind := WorkloadKindCollection,
          Spec := {
            API := { Kind := "WorkloadCollectionTest" },
            CompanionCliRootcmd := {
              Name := "hasrootcommand",
              Description := "Manage workloadcollectiontest collection and components custom" } } }
      ).Spec.CompanionCliRootcmd.Description =
      "Manage workloadcollectiontest collection and components custom" ∧
    (ComponentWorkload.SetNames exampleNaming
        { Name := "shared-name", Kind := WorkloadKindComponent,
          Spec := {
            API := { Kind := "ComponentWorkloadTest" },
            CompanionCliSubcmd := {
              Name := "componentworkloadtest",
              Description := "Manage componentworkloadtest workload custom",
              VarName := "Componentworkloadtest",
              FileName := "componentworkloadtest" } } }
      ).Spec.CompanionCliSubcmd.Description =
      "Manage componentworkloadtest workload custom" :=
  ⟨(setNames_keeps_set_names exampleNaming
      { Name := "shared-name", Kind := WorkloadKindCollection,
        Spec := {
          API := { Kind := "WorkloadCollectionTest" },
          CompanionCliRootcmd := {
            Name := "hasrootcommand",
            Description := "Manage workloadcollectiontest collection and components custom" } } }
      { Name := "shared-name", Kind := WorkloadKindComponent,
        Spec := {
          API := { Kind := "ComponentWorkloadTest" },
          CompanionCliSubcmd := {
            Name := "componentworkloadtest",
            Description := "Manage componentworkloadtest workload custom",
            VarName := "Componentworkloadtest",
            FileName := "componentworkloadtest" } } }
      (by decide)).2.1 (by decide),
    (setNames_keeps_set_names exampleNaming
      { Name := "shared-name", Kind := WorkloadKindCollection,
        Spec := {
          API := { Kind := "WorkloadCollectionTest" },
          CompanionCliRootcmd := {
            Name := "hasrootcommand",
            Description := "Manage workloadcollectiontest collection and components custom" } } }
      { Name := "shared-name", Kind := WorkloadKindComponent,
        Spec := {
          API := { Kind := "ComponentWorkloadTest" },
          CompanionCliSubcmd := {
            Name := "componentworkloadtest",
            Description := "Manage componentworkloadtest workload custom",
            VarName := "Componentworkloadtest",
            FileName := "componentworkloadtest" } } }
      (by decide)).2.2.2.2.2.1 (by decide)⟩

/-! ### Components of a workload -/

/-- C17: `SetComponents` on a component returns `ErrNoComponentsOnComponent`
for every list, the empty one included, and leaves the component as it was;
`GetComponents` of a component is the empty list, before and after. -/
theorem component_setComponents_rejected (k : ComponentWorkload) (components : List Ptr) :
    (k.SetComponents components).2 = some ErrNoComponentsOnComponent ∧
    (k.SetComponents components).1 = k ∧
    (k.SetComponents []).2 = some ErrNoComponentsOnComponent ∧
    (k.SetComponents []).1 = k ∧
    k.GetComponents = [] ∧
    (k.SetComponents components).1.GetComponents = [] :=
  ⟨rfl, rfl, rfl, rfl, rfl, rfl⟩

/-- C18: `SetComponents` on a collection returns nil; afterwards
`GetComponents` is the list that was given, with its length and order,
whatever the components were before, and no other field of the collection has
changed. -/
theorem collection_setComponents_stores (c : WorkloadCollection) (components : List Ptr) :
    (c.SetComponents components).2 = none ∧
    (c.SetComponents components).1.GetComponents = components ∧
    (c.SetComponents components).1.GetComponents.length = components.length ∧
    (∀ i : Nat, (c.SetComponents components).1.GetComponents.get? i = components.get? i) ∧
    (c.SetComponents components).1 =
      { c with Spec := { c.Spec with Components := components } } ∧
    (c.SetComponents components).1.toWorkloadShared = c.toWorkloadShared ∧
    (c.SetComponents components).1.Spec.toWorkloadSpec = c.Spec.toWorkloadSpec ∧
    (c.SetComponents components).1.Spec.API = c.Spec.API ∧
    (c.SetComponents components).1.Spec.CompanionCliRootcmd = c.Spec.CompanionCliRootcmd ∧
    (c.SetComponents components).1.Spec.CompanionCliSubcmd = c.Spec.CompanionCliSubcmd ∧
    (c.SetComponents components).1.Spec.ComponentFiles = c.Spec.ComponentFiles :=
  ⟨rfl, rfl, rfl, fun _ => rfl, rfl, rfl, rfl, rfl, rfl, rfl, rfl⟩

/-! ### Maps -/

/-- After `m[key] = value`, `m[key]` is `value`. -/
theorem mapIndex_mapAssign_self {α : Type} (m : List (String × α)) (key : String)
    (value : α) : mapIndex (mapAssign m key value) key = some value := by
  induction m with
  | nil => simp [mapAssign, mapIndex, List.lookup]
  | cons p rest ih =>
    obtain ⟨k, v⟩ := p
    unfold mapIndex at ih ⊢
    by_cases h : key = k
    · simp [mapAssign, h, List.lookup]
    · have hb : (key == k) = false := by simpa using h
      simp [mapAssign, h, List.lookup, hb, ih]

/-- After `m[key] = value`, every other key holds what it held. -/
theorem mapIndex_mapAssign_other {α : Type} (m : List (String × α)) (key other : String)
    (value : α) (hne : other ≠ key) :
    mapIndex (mapAssign m key value) other = mapIndex m other := by
  induction m with
  | nil =>
    have hb : (other == key) = false := by simpa using hne
    simp [mapAssign, mapIndex, List.lookup, hb]
  | cons p rest ih =>
    obtain ⟨k, v⟩ := p
    unfold mapIndex at ih ⊢
    by_cases h : key = k
    · subst h
      have hb : (other == key) = false := by simpa using hne
      simp [mapAssign, List.lookup, hb]
    · by_cases h2 : other = k
      · subst h2
        simp [mapAssign, h, List.lookup]
      · have hb : (other == k) = false := by simpa using h2
        simp [mapAssign, h, List.lookup, hb, ih]

/-- An assignment to a key that is present adds no key and drops none. -/
theorem mapAssign_keys {α : Type} (m : List (String × α)) (key : String) (value old : α)
    (hin : mapIndex m key = some old) :
    (mapAssign m key value).map Prod.fst = m.map Prod.fst := by
  induction m with
  | nil => simp [mapIndex, List.lookup] at hin
  | cons p rest ih =>
    obtain ⟨k, v⟩ := p
    unfold mapIndex at ih hin
    by_cases h : key = k
    · simp [mapAssign, h]
    · have hb : (key == k) = false := by simpa using h
      simp only [List.lookup, hb] at hin
      simp [mapAssign, h, ih hin]

/-- The loop of `mutateResources` on items that are maps with a string
`filename` gives the file names in order. -/
theorem convertResourceObjs_of_filenames (resourceObjs : List GoValue)
    (filenames : List String)
    (hitems : List.Forall₂
      (fun obj filename =>
        ∃ m, obj = GoValue.map m ∧ mapIndex m "filename" = some (GoValue.string filename))
      resourceObjs filenames) :
    convertResourceObjs resourceObjs = .ok filenames := by
  induction hitems with
  | nil => rfl
  | cons hhead _ ih =>
    obtain ⟨m, hobj, hname⟩ := hhead
    subst hobj
    simp [convertResourceObjs, hname, ih]

/-- C19: on a document whose `spec` is a map and whose `spec.resources` is a
list of maps that each hold a string `filename`, `mutateResources` returns nil
and stores under `spec.resources` the list of those file names in the same
order and number; every other key of `spec` and of the document holds what it
held, and no key is added or dropped. -/
theorem mutateResources_flattens (yamlData specField : List (String × GoValue))
    (resourceObjs : List GoValue) (filenames : List String)
    (hspec : mapIndex yamlData "spec" = some (GoValue.map specField))
    (hres : mapIndex specField "resources" = some (GoValue.slice resourceObjs))
    (hitems : List.Forall₂
      (fun obj filename =>
        ∃ m, obj = GoValue.map m ∧ mapIndex m "filename" = some (GoValue.string filename))
      resourceObjs filenames) :
    (mutateResources yamlData).2 = none ∧
    (mutateResources yamlData).1 =
      mapAssign yamlData "spec"
        (GoValue.map (mapAssign specField "resources" (GoValue.strings filenames))) ∧
    mapIndex (mutateResources yamlData).1 "spec" =
      some (GoValue.map (mapAssign specField "resources" (GoValue.strings filenames))) ∧
    mapIndex (mapAssign specField "resources" (GoValue.strings filenames)) "resources" =
      some (GoValue.strings filenames) ∧
    filenames.length = resourceObjs.length ∧
    (∀ key : String, key ≠ "resources" →
      mapIndex (mapAssign specField "resources" (GoValue.strings filenames)) key =
        mapIndex specField key) ∧
    (∀ key : String, key ≠ "spec" →
      mapIndex (mutateResources yamlData).1 key = mapIndex yamlData key) ∧
    (mapAssign specField "resources" (GoValue.strings filenames)).map Prod.fst =
      specField.map Prod.fst ∧
    (mutateResources yamlData).1.map Prod.fst = yamlData.map Prod.fst := by
  have hconv := convertResourceObjs_of_filenames resourceObjs filenames hitems
  have hrun : mutateResources yamlData =
      (mapAssign yamlData "spec"
        (GoValue.map (mapAssign specField "resources" (GoValue.strings filenames))), none) := by
    simp [mutateResources, hspec, hres, hconv]
  rw [hrun]
  refine ⟨rfl, rfl, mapIndex_mapAssign_self _ _ _, mapIndex_mapAssign_self _ _ _,
    hitems.length_eq.symm, ?_, ?_, mapAssign_keys _ _ _ _ hres, mapAssign_keys _ _ _ _ hspec⟩
  · intro key hne
    exact mapIndex_mapAssign_other _ _ _ _ hne
  · intro key hne
    exact mapIndex_mapAssign_other _ _ _ _ hne

/-- Witness of C19: a document with a kind, a name and a spec that holds two
resources and a list of dependencies. -/
theorem mutateResources_flattens_witness :
    mutateResources
        [("name", GoValue.string "web"),
          ("spec", GoValue.map
            [("resources", GoValue.slice
                [GoValue.map [("filename", GoValue.string "deploy.yaml")],
                  GoValue.map [("filename", GoValue.string "service.yaml")]]),
              ("dependencies", GoValue.strings ["db"])]),
          ("kind", GoValue.string "ComponentWorkload")] =
      ([("name", GoValue.string "web"),
          ("spec", GoValue.map
            [("resources", GoValue.strings ["deploy.yaml", "service.yaml"]),
              ("dependencies", GoValue.strings ["db"])]),
          ("kind", GoValue.string "ComponentWorkload")], none) :=
  Prod.ext
    ((mutateResources_flattens
      [("name", GoValue.string "web"),
        ("spec", GoValue.map
          [("resources", GoValue.slice
              [GoValue.map [("filename", GoValue.string "deploy.yaml")],
                GoValue.map [("filename", GoValue.string "service.yaml")]]),
            ("dependencies", GoValue.strings ["db"])]),
        ("kind", GoValue.string "ComponentWorkload")]
      [("resources", GoValue.slice
          [GoValue.map [("filename", GoValue.string "deploy.yaml")],
            GoValue.map [("filename", GoValue.string "service.yaml")]]),
        ("dependencies", GoValue.strings ["db"])]
      [GoValue.map [("filename", GoValue.string "deploy.yaml")],
        GoValue.map [("filename", GoValue.string "service.yaml")]]
      ["deploy.yaml", "service.yaml"]
      rfl rfl
      (List.Forall₂.cons ⟨_, rfl, rfl⟩
        (List.Forall₂.cons ⟨_, rfl, rfl⟩ List.Forall₂.nil))).2.1.trans rfl)
    (mutateResources_flattens
      [("name", GoValue.string "web"),
        ("spec", GoValue.map
          [("resources", GoValue.slice
              [GoValue.map [("filename", GoValue.string "deploy.yaml")],
                GoValue.map [("filename", GoValue.string "service.yaml")]]),
            ("dependencies", GoValue.strings ["db"])]),
        ("kind", GoValue.string "ComponentWorkload")]
      [("resources", GoValue.slice
          [GoValue.map [("filename", GoValue.string "deploy.yaml")],
            GoValue.map [("filename", GoValue.string "service.yaml")]]),
        ("dependencies", GoValue.strings ["db"])]
      [GoValue.map [("filename", GoValue.string "deploy.yaml")],
        GoValue.map [("filename", GoValue.string "service.yaml")]]
      ["deploy.yaml", "service.yaml"]
      rfl rfl
      (List.Forall₂.cons ⟨_, rfl, rfl⟩
        (List.Forall₂.cons ⟨_, rfl, rfl⟩ List.Forall₂.nil))).1

/-! ### Writing the configuration -/

/-- Counterexample to C20: with `Force` true and a file at the path, and also
with no file at the path, a write that the system refuses leaves the file
without the given data; `outputFile` returns the error of the write. -/
theorem outputFile_refused_write :
    outputFile
        { files := [("/etc/app/workload.yaml", "name: old\n")],
          refused := ["/etc/app/workload.yaml"] }
        { Path := "/etc/app/workload.yaml", Force := true }
        "name: new\n" =
      ({ files := [("/etc/app/workload.yaml", "name: old\n")],
          refused := ["/etc/app/workload.yaml"] },
        some (.wrap
          "permission denied; unable to write to file at location /etc/app/workload.yaml"
          ErrPermission)) ∧
    mapIndex (outputFile
        { files := [("/etc/app/workload.yaml", "name: old\n")],
          refused := ["/etc/app/workload.yaml"] }
        { Path := "/etc/app/workload.yaml", Force := true }
        "name: new\n").1.files "/etc/app/workload.yaml" = some "name: old\n" ∧
    ¬ (mapIndex (outputFile
        { files := [("/etc/app/workload.yaml", "name: old\n")],
          refused := ["/etc/app/workload.yaml"] }
        { Path := "/etc/app/workload.yaml", Force := true }
        "name: new\n").1.files "/etc/app/workload.yaml" = some "name: new\n") ∧
    ¬ (mapIndex (outputFile
        { files := [], refused := ["/etc/app/workload.yaml"] }
        { Path := "/etc/app/workload.yaml", Force := false }
        "name: new\n").1.files "/etc/app/workload.yaml" = some "name: new\n") := by
  decide

/-- C20, amended: for a path other than `-` at which a file exists, without
`Force` `outputFile` returns an error that wraps `ErrFileExists` and changes
nothing; with `Force`, or when no file exists at the path, `outputFile` calls
`os.WriteFile`: when the write succeeds it returns nil, the content of the file
is the given data and every other file is as it was, and when the write is
refused it returns an error that wraps the error of the write; with the path
`-` no file is written. -/
theorem outputFile_respects_force (fs : FileSystem) (options : InitConfigOptions)
    (data : String) :
    (options.Path ≠ "-" → (∃ old, mapIndex fs.files options.Path = some old) →
      options.Force = false →
      (outputFile fs options data).1 = fs ∧
      ∃ err, (outputFile fs options data).2 = some err ∧ err.Is ErrFileExists = true) ∧
    (options.Path ≠ "-" →
      (options.Force = true ∨ mapIndex fs.files options.Path = none) →
      options.Path ∉ fs.refused →
      (outputFile fs options data).2 = none ∧
      mapIndex (outputFile fs options data).1.files options.Path = some data ∧
      (∀ other : String, other ≠ options.Path →
        mapIndex (outputFile fs options data).1.files other = mapIndex fs.files other) ∧
      (outputFile fs options data).1.stdout = fs.stdout) ∧
    (options.Path ≠ "-" →
      (options.Force = true ∨ mapIndex fs.files options.Path = none) →
      options.Path ∈ fs.refused →
      ∃ err, (outputFile fs options data).2 = some err ∧ err.Is ErrPermission = true ∧
        err.Is ErrFileExists = false) ∧
    (options.Path = "-" → (outputFile fs options data).1.files = fs.files) := by
  refine ⟨?_, ?_, ?_, ?_⟩
  · rintro hp ⟨old, hold⟩ hf
    have hstat : osStat fs options.Path = none := by simp [osStat, hold]
    simp [outputFile, hp, hstat, hf, GoError.Is, ErrFileExists]
  · intro hp hcase hok
    have hw : outputFileWrite fs options data =
        ({ fs with files := mapAssign fs.files options.Path data }, none) := by
      simp [outputFileWrite, osWriteFile, hok]
    have hrun : outputFile fs options data =
        ({ fs with files := mapAssign fs.files options.Path data }, none) := by
      rcases hcase with hf | hnone
      · by_cases hstat : osStat fs options.Path = none
        · simp [outputFile, hp, hstat, hf, hw]
        · simp [outputFile, hp, hstat, hw]
      · have hstat : osStat fs options.Path ≠ none := by simp [osStat, hnone]
        simp [outputFile, hp, hstat, hw]
    rw [hrun]
    refine ⟨rfl, mapIndex_mapAssign_self _ _ _, ?_, rfl⟩
    intro other hne
    exact mapIndex_mapAssign_other _ _ _ _ hne
  · intro hp hcase hno
    have hw : outputFileWrite fs options data =
        (fs, some (.wrap (ErrPermission.Error ++ "; " ++ ErrWriteFile.Error ++
          " at location " ++ options.Path) ErrPermission)) := by
      simp [outputFileWrite, osWriteFile, hno]
    have hrun : outputFile fs options data =
        (fs, some (.wrap (ErrPermission.Error ++ "; " ++ ErrWriteFile.Error ++
          " at location " ++ options.Path) ErrPermission)) := by
      rcases hcase with hf | hnone
      · by_cases hstat : osStat fs options.Path = none
        · simp [outputFile, hp, hstat, hf, hw]
        · simp [outputFile, hp, hstat, hw]
      · have hstat : osStat fs options.Path ≠ none := by simp [osStat, hnone]
        simp [outputFile, hp, hstat, hw]
    rw [hrun]
    refine ⟨_, rfl, ?_, ?_⟩
    · simp [GoError.Is, ErrPermission]
    · simp [GoError.Is, ErrPermission, ErrFileExists]
  · intro hp
    by_cases hr : fs.stdoutRefused = true
    · simp [outputFile, hp, osStdoutWriteString, hr]
    · simp [outputFile, hp, osStdoutWriteString, hr]

/-- Witness of C20, amended: without `Force` an existing file is kept and the
error wraps `ErrFileExists`; with `Force` the file takes the data. -/
theorem outputFile_respects_force_witness :
    (outputFile { files := [("workload.yaml", "name: old\n")] }
        { Path := "workload.yaml", Force := false } "name: new\n").1 =
      { files := [("workload.yaml", "name: old\n")] } ∧
    mapIndex (outputFile { files := [("workload.yaml", "name: old\n")] }
        { Path := "workload.yaml", Force := true } "name: new\n").1.files "workload.yaml" =
      some "name: new\n" :=
  ⟨((outputFile_respects_force { files := [("workload.yaml", "name: old\n")] }
      { Path := "workload.yaml", Force := false } "name: new\n").1
      (by decide) ⟨"name: old\n", rfl⟩ rfl).1,
    ((outputFile_respects_force { files := [("workload.yaml", "name: old\n")] }
      { Path := "workload.yaml", Force := true } "name: new\n").2.1
      (by decide) (Or.inl rfl) (by decide)).2.1⟩

/-! ### WriteConfig -/

/-- An error of `Validate`, of any workload, wraps
`ErrMissingRequiredFields`. -/
theorem initializer_validate_error_Is (w : WorkloadInitializer) (err : GoError)
    (h : w.Validate = some err) : err.Is ErrMissingRequiredFields = true := by
  cases w with
  | collection c =>
    simp only [WorkloadInitializer.Validate, WorkloadCollection.Validate] at h
    split at h
    · cases h; exact errorfFields_Is _ _
    · cases h
  | component c =>
    simp only [WorkloadInitializer.Validate, ComponentWorkload.Validate] at h
    split at h
    · cases h; exact errorfFields_Is _ _
    · cases h
  | standalone s =>
    simp only [WorkloadInitializer.Validate, StandaloneWorkload.Validate] at h
    split at h
    · cases h
    · cases h; exact errorfFields_Is _ _

/-- C21: when `Validate` of the workload of the options fails, `WriteConfig`
returns that error wrapped, an error that wraps `ErrMissingRequiredFields`, and
the system is as it was: nothing is written to standard output and no file is
created or changed. -/
theorem writeConfig_validates_first (yaml : YamlLib) (fs : FileSystem)
    (options : InitConfigOptions) (w : WorkloadInitializer) (err : GoError)
    (hw : options.WorkloadConfig = some w) (hv : w.Validate = some err) :
    WriteConfig yaml fs options =
      .returns (fs, some (.wrap (err.Error ++ "; invalid configuration") err)) ∧
    (GoError.wrap (err.Error ++ "; invalid configuration") err).Is
      ErrMissingRequiredFields = true ∧
    (∀ (fs1 : FileSystem) (result : Option GoError),
      WriteConfig yaml fs options = .returns (fs1, result) →
      fs1.stdout = fs.stdout ∧ fs1.files = fs.files ∧ fs1 = fs ∧
      ∃ e, result = some e ∧ e.Is ErrMissingRequiredFields = true) := by
  have hrun : WriteConfig yaml fs options =
      .returns (fs, some (.wrap (err.Error ++ "; invalid configuration") err)) := by
    simp [WriteConfig, hw, hv]
  have his : (GoError.wrap (err.Error ++ "; invalid configuration") err).Is
      ErrMissingRequiredFields = true := by
    simp [GoError.Is, initializer_validate_error_Is w err hv]
  refine ⟨hrun, his, ?_⟩
  intro fs1 result h
  rw [hrun] at h
  injection h with h
  injection h with h1 h2
  subst h1
  subst h2
  exact ⟨rfl, rfl, rfl, _, rfl, his⟩

/-- Witness of C21: a collection without a name, to be written over an
existing file with `Force`; the file is kept. -/
theorem writeConfig_validates_first_witness :
    WriteConfig
        { Marshal := fun _ => .ok "",
          UnmarshalMap := fun _ => .ok [],
          MarshalMap := fun _ => .ok "",
          UnmarshalNode := fun text => .ok ⟨text⟩,
          Encode := fun _ node => .ok node.Value }
        { files := [("workload.yaml", "name: old\n")] }
        { Path := "workload.yaml", Force := true,
          WorkloadConfig := some (.collection
            { Name := "",
              Spec := { API := {
                Domain := "example.com", Group := "apps", Version := "v1", Kind := "Web" } } }) } =
      .returns ({ files := [("workload.yaml", "name: old\n")] },
        some (.wrap "missing required fields: [name]; invalid configuration"
          (.wrap "missing required fields: [name]" ErrMissingRequiredFields))) :=
  (writeConfig_validates_first _ _ _
    (.collection
      { Name := "",
        Spec := { API := {
          Domain := "example.com", Group := "apps", Version := "v1", Kind := "Web" } } })
    (.wrap "missing required fields: [name]" ErrMissingRequiredFields)
    rfl (by decide)).1.trans (by decide)

/-! ### The variant tag -/

/-- C22: `NewWorkloadCollection` returns a workload of kind Collection and
`NewComponentWorkload` one of kind Component; of `IsStandalone`, `IsCollection`
and `IsComponent` exactly the one of that kind is true; `SetNames` and
`SetComponents` leave the field `Kind` as it is. `Validate` assigns to no
field and is a function of the receiver. -/
theorem variant_tag_fixed (u : Naming) (NewSampleAPISpec spec : WorkloadAPISpec)
    (name : String) (componentFiles resourceFiles dependencies : List String)
    (c : WorkloadCollection) (k : ComponentWorkload) (components : List Ptr) :
    (NewWorkloadCollection name spec componentFiles).GetWorkloadKind =
      WorkloadKindCollection ∧
    (NewComponentWorkload NewSampleAPISpec name spec resourceFiles
      dependencies).GetWorkloadKind = WorkloadKindComponent ∧
    ((NewWorkloadCollection name spec componentFiles).IsCollection = true ∧
      (NewWorkloadCollection name spec componentFiles).IsStandalone = false ∧
      (NewWorkloadCollection name spec componentFiles).IsComponent = false) ∧
    ((NewComponentWorkload NewSampleAPISpec name spec resourceFiles
        dependencies).IsComponent = true ∧
      (NewComponentWorkload NewSampleAPISpec name spec resourceFiles
        dependencies).IsStandalone = false ∧
      (NewComponentWorkload NewSampleAPISpec name spec resourceFiles
        dependencies).IsCollection = false) ∧
    (c.IsCollection = true ∧ c.IsStandalone = false ∧ c.IsComponent = false) ∧
    (k.IsComponent = true ∧ k.IsStandalone = false ∧ k.IsCollection = false) ∧
    (c.SetNames u).Kind = c.Kind ∧
    (c.SetComponents components).1.Kind = c.Kind ∧
    (k.SetNames u).Kind = k.Kind ∧
    (k.SetComponents components).1.Kind = k.Kind ∧
    ((NewWorkloadCollection name spec componentFiles).SetNames u).GetWorkloadKind =
      WorkloadKindCollection ∧
    ((NewComponentWorkload NewSampleAPISpec name spec resourceFiles
      dependencies).SetNames u).GetWorkloadKind = WorkloadKindComponent := by
  have hc : ∀ d : WorkloadCollection, (d.SetNames u).Kind = d.Kind := by
    intro d
    unfold WorkloadCollection.SetNames
    by_cases h : WorkloadCollection.HasRootCmdName
      { d with PackageName := u.ToPackageName d.Name } = true
    · simp [h]
    · simp [h]
  refine ⟨rfl, rfl, ⟨rfl, rfl, rfl⟩, ⟨rfl, rfl, rfl⟩, ⟨rfl, rfl, rfl⟩, ⟨rfl, rfl, rfl⟩,
    hc c, rfl, rfl, rfl, ?_, rfl⟩
  unfold WorkloadCollection.GetWorkloadKind
  rw [hc]
  rfl

/-! ### Decoding a kind -/

/-- C23, the code at the failing input: `UnmarshalJSON` on the JSON string
value of the tag of a named kind, the tag between double quotes, returns
`ErrInvalidKind` and leaves the receiver as it was. -/
theorem unmarshalJSON_rejects_quoted_tag (wk : WorkloadKind) :
    wk.UnmarshalJSON "\x22StandaloneWorkload\x22" = (wk, some ErrInvalidKind) ∧
    wk.UnmarshalJSON "\x22WorkloadCollection\x22" = (wk, some ErrInvalidKind) ∧
    wk.UnmarshalJSON "\x22ComponentWorkload\x22" = (wk, some ErrInvalidKind) ∧
    "\x22StandaloneWorkload\x22" = "\x22" ++ WorkloadKindStandalone.String ++ "\x22" ∧
    "\x22WorkloadCollection\x22" = "\x22" ++ WorkloadKindCollection.String ++ "\x22" ∧
    "\x22ComponentWorkload\x22" = "\x22" ++ WorkloadKindComponent.String ++ "\x22" := by
  refine ⟨?_, ?_, ?_, by decide, by decide, by decide⟩ <;>
    rw [unmarshalJSON_cases] <;> simp

/-- C25: when `UnmarshalYAML` or `UnmarshalJSON` returns `ErrInvalidKind`, the
receiver is what it was before the call. -/
theorem unmarshal_failure_keeps_receiver (wk : WorkloadKind) (s : String) :
    ((wk.UnmarshalYAML ⟨s⟩).2 = some ErrInvalidKind → (wk.UnmarshalYAML ⟨s⟩).1 = wk) ∧
    ((wk.UnmarshalJSON s).2 = some ErrInvalidKind → (wk.UnmarshalJSON s).1 = wk) := by
  constructor
  · rw [unmarshalYAML_cases]
    by_cases h1 : s = "StandaloneWorkload" <;> by_cases h2 : s = "WorkloadCollection" <;>
      by_cases h3 : s = "ComponentWorkload" <;> simp [h1, h2, h3]
  · rw [unmarshalJSON_cases]
    by_cases h1 : s = "StandaloneWorkload" <;> by_cases h2 : s = "WorkloadCollection" <;>
      by_cases h3 : s = "ComponentWorkload" <;> simp [h1, h2, h3]

/-- Witness of C25: a receiver that holds the collection kind keeps it when an
unknown tag is decoded. -/
theorem unmarshal_failure_keeps_receiver_witness :
    (WorkloadKindCollection.UnmarshalYAML ⟨"Workload"⟩).1 = WorkloadKindCollection ∧
    (WorkloadKindCollection.UnmarshalJSON "Workload").1 = WorkloadKindCollection :=
  ⟨(unmarshal_failure_keeps_receiver WorkloadKindCollection "Workload").1 (by decide),
    (unmarshal_failure_keeps_receiver WorkloadKindCollection "Workload").2 (by decide)⟩

/-! ### The descriptor and the fields of the workload -/

/-- C26: two collections, and two components, that agree on the API group,
version and kind get equal descriptors from `GetComponentResource` for the same
arguments, whatever their own API domain and cluster scope and their other
fields are. The call assigns to no field of the workload. -/
theorem getComponentResource_reads_arguments (RegularPlural : String → String)
    (c1 c2 : WorkloadCollection) (k1 k2 : ComponentWorkload) (domain repo : String)
    (clusterScoped : Bool)
    (hcg : c1.Spec.API.Group = c2.Spec.API.Group)
    (hcv : c1.Spec.API.Version = c2.Spec.API.Version)
    (hck : c1.Spec.API.Kind = c2.Spec.API.Kind)
    (hkg : k1.Spec.API.Group = k2.Spec.API.Group)
    (hkv : k1.Spec.API.Version = k2.Spec.API.Version)
    (hkk : k1.Spec.API.Kind = k2.Spec.API.Kind) :
    c1.GetComponentResource RegularPlural domain repo clusterScoped =
      c2.GetComponentResource RegularPlural domain repo clusterScoped ∧
    k1.GetComponentResource RegularPlural domain repo clusterScoped =
      k2.GetComponentResource RegularPlural domain repo clusterScoped := by
  constructor
  · simp only [WorkloadCollection.GetComponentResource, hcg, hcv, hck]
  · simp only [ComponentWorkload.GetComponentResource, hkg, hkv, hkk]

/-- Witness of C26: two collections and two components with different domains
and scopes of their own. -/
theorem getComponentResource_reads_arguments_witness :
    WorkloadCollection.GetComponentResource (fun kind => lowerChars kind ++ "s")
        { Name := "a", Spec := { API := {
          Domain := "one.example", Group := "apps", Version := "v1", Kind := "Widget",
          ClusterScoped := true } } }
        "example.com" "repo/mod" false =
      WorkloadCollection.GetComponentResource (fun kind => lowerChars kind ++ "s")
        { Name := "b", Spec := { API := {
          Domain := "two.example", Group := "apps", Version := "v1", Kind := "Widget",
          ClusterScoped := false } } }
        "example.com" "repo/mod" false :=
  (getComponentResource_reads_arguments (fun kind => lowerChars kind ++ "s")
    { Name := "a", Spec := { API := {
      Domain := "one.example", Group := "apps", Version := "v1", Kind := "Widget",
      ClusterScoped := true } } }
    { Name := "b", Spec := { API := {
      Domain := "two.example", Group := "apps", Version := "v1", Kind := "Widget",
      ClusterScoped := false } } }
    { Name := "a", Spec := { API := { Domain := "one.example", Kind := "Widget" } } }
    { Name := "b", Spec := { API := { Domain := "two.example", Kind := "Widget" } } }
    "example.com" "repo/mod" false rfl rfl rfl rfl rfl rfl).1

/-- C27, the code at the failing input: `NewComponentWorkload` stores the
name, the dependencies and one resource per file in order, with no resolved
dependency, and `NewWorkloadCollection` stores the name, the API spec and the
component files, with no component; but the API spec of the component is the
sample API spec, whatever spec is given, so of two different specs at least one
is not stored. -/
theorem newComponentWorkload_drops_spec (NewSampleAPISpec spec : WorkloadAPISpec)
    (name : String) (componentFiles resourceFiles dependencies : List String) :
    (NewComponentWorkload NewSampleAPISpec name spec resourceFiles dependencies).Spec.API =
      NewSampleAPISpec ∧
    ¬ ((NewComponentWorkload NewSampleAPISpec "web"
          { Domain := "example.com", Group := "apps", Version := "v1", Kind := "Web" }
          resourceFiles dependencies).Spec.API =
        { Domain := "example.com", Group := "apps", Version := "v1", Kind := "Web" } ∧
      (NewComponentWorkload NewSampleAPISpec "web"
          { Domain := "example.com", Group := "apps", Version := "v2", Kind := "Web" }
          resourceFiles dependencies).Spec.API =
        { Domain := "example.com", Group := "apps", Version := "v2", Kind := "Web" }) ∧
    (NewComponentWorkload NewSampleAPISpec name spec resourceFiles dependencies).Name = name ∧
    (NewComponentWorkload NewSampleAPISpec name spec resourceFiles
      dependencies).Spec.Dependencies = dependencies ∧
    (NewComponentWorkload NewSampleAPISpec name spec resourceFiles
      dependencies).Spec.Resources.map Resource.FileName = resourceFiles ∧
    (NewComponentWorkload NewSampleAPISpec name spec resourceFiles
      dependencies).Spec.Resources.length = resourceFiles.length ∧
    (NewComponentWorkload NewSampleAPISpec name spec resourceFiles
      dependencies).Spec.ComponentDependencies = [] ∧
    (NewWorkloadCollection name spec componentFiles).Name = name ∧
    (NewWorkloadCollection name spec componentFiles).Spec.API = spec ∧
    (NewWorkloadCollection name spec componentFiles).Spec.ComponentFiles = componentFiles ∧
    (NewWorkloadCollection name spec componentFiles).Spec.Components = [] := by
  refine ⟨rfl, ?_, rfl, rfl, ?_, ?_, rfl, rfl, rfl, rfl, rfl⟩
  · rintro ⟨h1, h2⟩
    have h3 : (NewComponentWorkload NewSampleAPISpec "web"
        { Domain := "example.com", Group := "apps", Version := "v1", Kind := "Web" }
        resourceFiles dependencies).Spec.API = NewSampleAPISpec := rfl
    have h4 : (NewComponentWorkload NewSampleAPISpec "web"
        { Domain := "example.com", Group := "apps", Version := "v2", Kind := "Web" }
        resourceFiles dependencies).Spec.API = NewSampleAPISpec := rfl
    rw [h3] at h1
    rw [h4] at h2
    rw [h1] at h2
    exact absurd h2 (by decide)
  · simp [NewComponentWorkload, getResourcesFromFiles, Function.comp_def]
  · simp [NewComponentWorkload, getResourcesFromFiles]

/-! ### Failures of mutateResources -/

/-- One turn of the loop of `mutateResources`, by the file name of the item. -/
theorem convertResourceObjs_cons (obj : GoValue) (rest : List GoValue) :
    convertResourceObjs (obj :: rest) =
      match obj.resourceFilename with
      | some filename =>
        match convertResourceObjs rest with
        | .ok resources => .ok (filename :: resources)
        | .error err => .error err
      | none =>
        if obj.isMap then
          .error (.wrap (ErrConvertString.Error ++ "; error converting spec.resources.filename")
            ErrConvertString)
        else
          .error (.wrap
            (ErrConvertMapStringInterface.Error ++ "; error converting spec.resources item")
            ErrConvertMapStringInterface) := by
  cases obj with
  | map resourceMap =>
    simp only [convertResourceObjs, GoValue.resourceFilename, GoValue.isMap]
    cases hm : mapIndex resourceMap "filename" with
    | none => simp
    | some value => cases value <;> simp
  | nil => simp [convertResourceObjs, GoValue.resourceFilename, GoValue.isMap]
  | bool b => simp [convertResourceObjs, GoValue.resourceFilename, GoValue.isMap]
  | int n => simp [convertResourceObjs, GoValue.resourceFilename, GoValue.isMap]
  | string s => simp [convertResourceObjs, GoValue.resourceFilename, GoValue.isMap]
  | strings xs => simp [convertResourceObjs, GoValue.resourceFilename, GoValue.isMap]
  | slice xs => simp [convertResourceObjs, GoValue.resourceFilename, GoValue.isMap]

/-- The loop of `mutateResources` stops at the first item that has no file
name, with the error of that item. -/
theorem convertResourceObjs_first_fault (good : List GoValue) (bad : GoValue)
    (rest : List GoValue) (hgood : ∀ obj ∈ good, obj.resourceFilename ≠ none)
    (hbad : bad.resourceFilename = none) :
    convertResourceObjs (good ++ bad :: rest) =
      if bad.isMap then
        .error (.wrap (ErrConvertString.Error ++ "; error converting spec.resources.filename")
          ErrConvertString)
      else
        .error (.wrap
          (ErrConvertMapStringInterface.Error ++ "; error converting spec.resources item")
          ErrConvertMapStringInterface) := by
  induction good with
  | nil =>
    simp only [List.nil_append]
    rw [convertResourceObjs_cons, hbad]
  | cons obj tail ih =>
    have hobj : obj.resourceFilename ≠ none := hgood obj (List.mem_cons_self _ _)
    have htail : ∀ o ∈ tail, o.resourceFilename ≠ none :=
      fun o ho => hgood o (List.mem_cons_of_mem _ ho)
    simp only [List.cons_append]
    rw [convertResourceObjs_cons, ih htail]
    cases hf : obj.resourceFilename with
    | none => exact absurd hf hobj
    | some filename => cases bad.isMap <;> simp

/-- The loop of `mutateResources` on items that all have a file name gives the
file names in order. -/
theorem convertResourceObjs_all_good (objs : List GoValue)
    (hgood : ∀ obj ∈ objs, obj.resourceFilename ≠ none) :
    convertResourceObjs objs = .ok (objs.filterMap GoValue.resourceFilename) := by
  induction objs with
  | nil => rfl
  | cons obj tail ih =>
    have hobj : obj.resourceFilename ≠ none := hgood obj (List.mem_cons_self _ _)
    have htail : ∀ o ∈ tail, o.resourceFilename ≠ none :=
      fun o ho => hgood o (List.mem_cons_of_mem _ ho)
    rw [convertResourceObjs_cons, ih htail]
    cases hf : obj.resourceFilename with
    | none => exact absurd hf hobj
    | some filename => simp [List.filterMap_cons, hf]

/-- Counterexample to C24: in a document whose `spec.resources` holds first a
map without `filename` and then a number, some item is not a map, yet the error
of `mutateResources` wraps `ErrConvertString` and does not wrap
`ErrConvertMapStringInterface`. -/
theorem mutateResources_first_item_decides :
    (mutateResources
        [("spec", GoValue.map
          [("resources", GoValue.slice
            [GoValue.map [("path", GoValue.string "deploy.yaml")], GoValue.int 42])])]).2 =
      some (.wrap "unable to convert to string; error converting spec.resources.filename"
        ErrConvertString) ∧
    (GoError.wrap "unable to convert to string; error converting spec.resources.filename"
      ErrConvertString).Is ErrConvertMapStringInterface = false ∧
    (GoValue.int 42).isMap = false := by
  decide

/-- C24, amended: `mutateResources` returns an error that wraps
`ErrConvertMapStringInterface` when `spec` is absent or not a map,
`ErrConvertArrayInterface` when `spec.resources` is absent or not a list, and
otherwise the error of the first item of `spec.resources` that is not a map
with a string `filename`: `ErrConvertMapStringInterface` when that item is not
a map, `ErrConvertString` when it is a map; it returns nil when every item is a
map with a string `filename`; and whenever it returns an error the document is
what it was. -/
theorem mutateResources_failures (yamlData : List (String × GoValue)) :
    ((∀ specField, mapIndex yamlData "spec" ≠ some (GoValue.map specField)) →
      mutateResources yamlData =
        (yamlData,
          some (.wrap "unable to convert to map[string]interface\x7b\x7d; error converting workload config spec"
            ErrConvertMapStringInterface))) ∧
    (∀ specField, mapIndex yamlData "spec" = some (GoValue.map specField) →
      ((∀ objs, mapIndex specField "resources" ≠ some (GoValue.slice objs)) →
        mutateResources yamlData =
          (yamlData,
            some (.wrap "unable to convert to []interface\x7b\x7d; error converting spec.resources"
              ErrConvertArrayInterface))) ∧
      (∀ good bad rest,
        mapIndex specField "resources" = some (GoValue.slice (good ++ bad :: rest)) →
        (∀ obj ∈ good, obj.resourceFilename ≠ none) →
        bad.resourceFilename = none →
        (bad.isMap = false →
          mutateResources yamlData =
            (yamlData,
              some (.wrap "unable to convert to map[string]interface\x7b\x7d; error converting spec.resources item"
                ErrConvertMapStringInterface))) ∧
        (bad.isMap = true →
          mutateResources yamlData =
            (yamlData,
              some (.wrap "unable to convert to string; error converting spec.resources.filename"
                ErrConvertString)))) ∧
      (∀ objs, mapIndex specField "resources" = some (GoValue.slice objs) →
        (∀ obj ∈ objs, obj.resourceFilename ≠ none) →
        (mutateResources yamlData).2 = none)) ∧
    ((mutateResources yamlData).2 ≠ none → (mutateResources yamlData).1 = yamlData) := by
  refine ⟨?_, ?_, ?_⟩
  · intro hspec
    unfold mutateResources
    split
    · rename_i specField heq
      exact absurd heq (hspec specField)
    · rfl
  · intro specField hspec
    refine ⟨?_, ?_, ?_⟩
    · intro hres
      cases hr : mapIndex specField "resources" with
      | none => simp [mutateResources, hspec, hr]; rfl
      | some value =>
        cases value with
        | slice objs => exact absurd hr (hres objs)
        | nil => simp [mutateResources, hspec, hr]; rfl
        | bool b => simp [mutateResources, hspec, hr]; rfl
        | int n => simp [mutateResources, hspec, hr]; rfl
        | string t => simp [mutateResources, hspec, hr]; rfl
        | strings xs => simp [mutateResources, hspec, hr]; rfl
        | map m => simp [mutateResources, hspec, hr]; rfl
    · intro good bad rest hres hgood hbad
      have hconv := convertResourceObjs_first_fault good bad rest hgood hbad
      constructor
      · intro hmap
        simp only [hmap] at hconv
        simp [mutateResources, hspec, hres, hconv]
        rfl
      · intro hmap
        simp only [hmap] at hconv
        simp [mutateResources, hspec, hres, hconv]
        rfl
    · intro objs hres hgood
      simp [mutateResources, hspec, hres, convertResourceObjs_all_good objs hgood]
  · intro herr
    unfold mutateResources at herr ⊢
    split
    · split
      · split
        · rename_i hconv
          simp [*] at herr
        · rfl
      · rfl
    · rfl

/-- Witness of C24, amended: a document without `spec` is refused and kept. -/
theorem mutateResources_failures_witness :
    (mutateResources [("name", GoValue.string "web")]).2 =
      some (.wrap "unable to convert to map[string]interface\x7b\x7d; error converting workload config spec"
        ErrConvertMapStringInterface) ∧
    (mutateResources [("name", GoValue.string "web")]).1.map Prod.fst = ["name"] :=
  ⟨congrArg Prod.snd ((mutateResources_failures [("name", GoValue.string "web")]).1
      (fun specField h => by simp [mapIndex, List.lookup] at h)),
    congrArg (fun doc => doc.map Prod.fst)
      ((mutateResources_failures [("name", GoValue.string "web")]).2.2 (by decide))⟩

/-! ### The init-config command -/

/-- The subcommands after `AddCommand`. -/
theorem commands_AddCommand (parent sub : cobra.Command) :
    (parent.AddCommand sub).commands = parent.commands ++ [sub] := by
  cases parent
  rfl

/-- The field `Use` is kept by `setRunE` and `addFlag`. -/
theorem Use_setRunE_addFlag (cmd : cobra.Command) (runE : Option GoError)
    (f1 f2 : cobra.Flag) :
    (((cmd.setRunE runE).addFlag f1).addFlag f2).Use = cmd.Use := by
  cases cmd
  rfl

/-- With one of the three names, `addInitSubCommand` returns nil and adds one
subcommand of that name at the end of the subcommands of the parent. -/
theorem addInitSubCommand_named (samples : ConfigSamples) (i : initConfigSubCommand)
    (parent : cobra.Command)
    (h : i.subCommandName = "collection" ∨ i.subCommandName = "component" ∨
      i.subCommandName = "standalone") :
    (i.addInitSubCommand samples parent).2.2 = none ∧
    ∃ sub : cobra.Command, sub.Use = i.subCommandName ∧
      (i.addInitSubCommand samples parent).2.1.commands = parent.commands ++ [sub] := by
  have hswitch : (i.switchOnUse samples i.subCommandName).2.2 = none := by
    rcases h with h | h | h
    · unfold initConfigSubCommand.switchOnUse
      rw [if_pos (by rw [h]; rfl)]
    · unfold initConfigSubCommand.switchOnUse
      rw [if_neg (by rw [h]; decide), if_pos (by rw [h]; rfl)]
    · unfold initConfigSubCommand.switchOnUse
      rw [if_neg (by rw [h]; decide), if_neg (by rw [h]; decide), if_pos (by rw [h]; rfl)]
  have hrun : i.addInitSubCommand samples parent =
      (((i.switchOnUse samples i.subCommandName).2.1.addCommonFlags
          ((cobra.Command.mk i.subCommandName i.subCommandDescription
            i.subCommandDescription none [] []).setRunE
            (i.switchOnUse samples i.subCommandName).1)).1,
        parent.AddCommand ((i.switchOnUse samples i.subCommandName).2.1.addCommonFlags
          ((cobra.Command.mk i.subCommandName i.subCommandDescription
            i.subCommandDescription none [] []).setRunE
            (i.switchOnUse samples i.subCommandName).1)).2.1,
        none) := by
    simp only [initConfigSubCommand.addInitSubCommand, cobra.Command.Use]
    generalize i.switchOnUse samples i.subCommandName = r at hswitch
    obtain ⟨r1, r2, r3⟩ := r
    simp only at hswitch
    subst hswitch
    rfl
  rw [hrun]
  refine ⟨rfl, _, ?_, commands_AddCommand _ _⟩
  simp only [initConfigSubCommand.addCommonFlags]
  rw [Use_setRunE_addFlag]
  rfl

/-- With any other name, `addInitSubCommand` returns the error that wraps
`ErrInvalidSubCommandName` and leaves the receiver and the parent as they
were. -/
theorem addInitSubCommand_unnamed (samples : ConfigSamples) (i : initConfigSubCommand)
    (parent : cobra.Command)
    (h : ¬ (i.subCommandName = "collection" ∨ i.subCommandName = "component" ∨
      i.subCommandName = "standalone")) :
    i.addInitSubCommand samples parent =
      (i, parent, some (.wrap ("invalid subcommand name - " ++ i.subCommandName)
        ErrInvalidSubCommandName)) := by
  have h1 : ¬ (i.subCommandName = collectionSubCommandName) := fun e => h (Or.inl e)
  have h2 : ¬ (i.subCommandName = componentSubCommandName) := fun e => h (Or.inr (Or.inl e))
  have h3 : ¬ (i.subCommandName = standaloneSubCommandName) := fun e => h (Or.inr (Or.inr e))
  simp only [initConfigSubCommand.addInitSubCommand, initConfigSubCommand.switchOnUse,
    cobra.Command.Use, h1, h2, h3, if_false]
  rfl

/-- The loop of `NewInitConfigCmd` over entries that all carry one of the three
names does not panic and adds one subcommand per entry, in the order of the
entries. -/
theorem newInitConfigCmdLoop_named (samples : ConfigSamples) (order : List (String × String))
    (horder : ∀ entry ∈ order,
      entry.1 = "collection" ∨ entry.1 = "component" ∨ entry.1 = "standalone")
    (cmd : cobra.Command) :
    ∃ result : cobra.Command, newInitConfigCmdLoop samples order cmd = .returns result ∧
      result.commands.map cobra.Command.Use =
        cmd.commands.map cobra.Command.Use ++ order.map Prod.fst := by
  induction order generalizing cmd with
  | nil => exact ⟨cmd, rfl, by simp⟩
  | cons entry rest ih =>
    obtain ⟨subCommandName, subCommandDescription⟩ := entry
    have hhead := horder (subCommandName, subCommandDescription) (List.mem_cons_self _ _)
    have hrest : ∀ e ∈ rest, e.1 = "collection" ∨ e.1 = "component" ∨ e.1 = "standalone" :=
      fun e he => horder e (List.mem_cons_of_mem _ he)
    obtain ⟨hnil, sub, huse, hcmds⟩ := addInitSubCommand_named samples
      (newInitConfigSubCommand subCommandName subCommandDescription) cmd hhead
    obtain ⟨result, hrun, hres⟩ := ih hrest
      ((newInitConfigSubCommand subCommandName subCommandDescription).addInitSubCommand
        samples cmd).2.1
    refine ⟨result, ?_, ?_⟩
    · rw [← hrun]
      simp only [newInitConfigCmdLoop]
      generalize (newInitConfigSubCommand subCommandName subCommandDescription).addInitSubCommand
        samples cmd = r at hnil
      obtain ⟨r1, r2, r3⟩ := r
      simp only at hnil
      subst hnil
      rfl
    · rw [hres, hcmds]
      simp only [List.map_append, List.map_cons, List.map_nil, List.append_assoc,
        List.singleton_append]
      rw [huse]
      rfl

/-- C28: `addInitSubCommand` returns an error, one that wraps
`ErrInvalidSubCommandName`, exactly when the name of the subcommand is none of
`collection`, `component`, `standalone`, and then the parent is as it was; with
one of the three names it adds one subcommand; the names of the map of
`NewInitConfigCmd` are those three, so for every order in which the map is
visited `NewInitConfigCmd` does not panic and returns a command with exactly
three subcommands, of those names. -/
theorem newInitConfigCmd_never_panics (samples : ConfigSamples) (i : initConfigSubCommand)
    (parent : cobra.Command) (order : List (String × String))
    (horder : order.Perm initConfigSubCommands) :
    ((i.addInitSubCommand samples parent).2.2 ≠ none ↔
      ¬ (i.subCommandName = "collection" ∨ i.subCommandName = "component" ∨
        i.subCommandName = "standalone")) ∧
    ((i.addInitSubCommand samples parent).2.2 =
        some (.wrap ("invalid subcommand name - " ++ i.subCommandName)
          ErrInvalidSubCommandName) ↔
      ¬ (i.subCommandName = "collection" ∨ i.subCommandName = "component" ∨
        i.subCommandName = "standalone")) ∧
    (GoError.wrap ("invalid subcommand name - " ++ i.subCommandName)
      ErrInvalidSubCommandName).Is ErrInvalidSubCommandName = true ∧
    (¬ (i.subCommandName = "collection" ∨ i.subCommandName = "component" ∨
        i.subCommandName = "standalone") →
      (i.addInitSubCommand samples parent).2.1.commands = parent.commands) ∧
    ((i.subCommandName = "collection" ∨ i.subCommandName = "component" ∨
        i.subCommandName = "standalone") →
      (i.addInitSubCommand samples parent).2.1.commands.length =
        parent.commands.length + 1) ∧
    initConfigSubCommands.map Prod.fst = ["collection", "component", "standalone"] ∧
    (∃ cmd : cobra.Command, NewInitConfigCmd samples order = .returns cmd ∧
      cmd.commands.length = 3 ∧
      cmd.commands.map cobra.Command.Use = order.map Prod.fst ∧
      (cmd.commands.map cobra.Command.Use).Perm ["collection", "component", "standalone"]) ∧
    (∀ err : GoError, NewInitConfigCmd samples order ≠ .panics err) := by
  have hnamed := addInitSubCommand_named samples i parent
  have hunnamed := addInitSubCommand_unnamed samples i parent
  have hnames : ∀ entry ∈ order,
      entry.1 = "collection" ∨ entry.1 = "component" ∨ entry.1 = "standalone" := by
    intro entry hin
    have hin2 := horder.subset hin
    simp only [initConfigSubCommands, List.mem_cons, List.mem_singleton, List.mem_nil_iff,
      or_false] at hin2
    rcases hin2 with e | e | e
    · left; rw [e]; rfl
    · right; left; rw [e]; rfl
    · right; right; rw [e]; rfl
  obtain ⟨cmd, hrun, hcmds⟩ := newInitConfigCmdLoop_named samples order hnames
    (.mk initConfigName initConfigDescription initConfigDescription none [] [])
  have hmap : cmd.commands.map cobra.Command.Use = order.map Prod.fst := by
    rw [hcmds]
    simp [cobra.Command.commands]
  have hperm : (order.map Prod.fst).Perm ["collection", "component", "standalone"] :=
    horder.map Prod.fst
  refine ⟨?_, ?_, ?_, ?_, ?_, rfl, ⟨cmd, hrun, ?_, hmap, hmap ▸ hperm⟩, ?_⟩
  · constructor
    · intro herr hname
      exact herr (hnamed hname).1
    · intro hname
      rw [hunnamed hname]
      simp
  · constructor
    · intro herr hname
      rw [(hnamed hname).1] at herr
      cases herr
    · intro hname
      rw [hunnamed hname]
  · simp [GoError.Is, ErrInvalidSubCommandName]
  · intro hname
    rw [hunnamed hname]
  · intro hname
    obtain ⟨_, sub, _, hc⟩ := hnamed hname
    rw [hc]
    simp
  · have hlen : (cmd.commands.map cobra.Command.Use).length = 3 := by
      rw [hmap, List.length_map, horder.length_eq]
      rfl
    simpa using hlen
  · intro err herr
    have : NewInitConfigCmd samples order = .returns cmd := hrun
    rw [this] at herr
    cases herr

/-- Witness of C28: the map visited from its last entry to its first; the
command has three subcommands, `standalone`, `component`, `collection`. -/
theorem newInitConfigCmd_never_panics_witness :
    ∃ cmd : cobra.Command,
      NewInitConfigCmd
          { newCollectionConfigSample := .collection
              (NewWorkloadCollection "workload-collection-config" {}
                ["/path/to/my/component-workload-config.yaml"]),
            newComponentConfigSample := .component
              (NewComponentWorkload {} "component-workload-config" {}
                ["/path/to/my/component-workload-config.yaml"]
                ["component-workload-config-2"]),
            newStandaloneConfigSample := .standalone
              { Name := "standalone-workload-config", Kind := WorkloadKindStandalone } }
          [("standalone", "initialize a standalone workload configuration"),
            ("component", "initialize a component workload configuration"),
            ("collection", "initialize a collection workload configuration")] =
        .returns cmd ∧
      cmd.commands.length = 3 ∧
      cmd.commands.map cobra.Command.Use = ["standalone", "component", "collection"] :=
  match (newInitConfigCmd_never_panics
      { newCollectionConfigSample := .collection
          (NewWorkloadCollection "workload-collection-config" {}
            ["/path/to/my/component-workload-config.yaml"]),
        newComponentConfigSample := .component
          (NewComponentWorkload {} "component-workload-config" {}
            ["/path/to/my/component-workload-config.yaml"]
            ["component-workload-config-2"]),
        newStandaloneConfigSample := .standalone
          { Name := "standalone-workload-config", Kind := WorkloadKindStandalone } }
      (newInitConfigSubCommand "collection" "initialize a collection workload configuration")
      (.mk "init-config" "" "" none [] [])
      [("standalone", "initialize a standalone workload configuration"),
        ("component", "initialize a component workload configuration"),
        ("collection", "initialize a collection workload configuration")]
      (by decide)).2.2.2.2.2.2.1 with
  | ⟨cmd, hrun, hlen, hmap, _⟩ => ⟨cmd, hrun, hlen, hmap⟩

end OperatorBuilder
